import Mathlib

set_option maxRecDepth 10000

/-!
Verification development for the PVR native-image codec
(src/rwlib/src/natimage.pvr.cpp).

The definitions below are a shallow embedding of the C++ source.  Pixel
format ids are the numeric values of `ePVRLegacyPixelFormat`; texel
buffers are modelled as functions from texel index to the stored memory
word (the raw bytes of one texel, interpreted as a little-endian
natural number); streams are byte lists or remaining byte counts.
Helpers that live in headers outside the provided sources
(pixelutil.hxx, streamutil.hxx, txdread.pvr.hxx, the endian wrappers)
are modelled from the spec and marked as such in their doc comments.
-/

/-! ## ePVRLegacyPixelFormat enumerator values (natimage.pvr.cpp lines 34-97) -/

def ARGB_4444 : Nat := 0
def ARGB_1555 : Nat := 1
def RGB_565 : Nat := 2
def RGB_555 : Nat := 3
def RGB_888 : Nat := 4
def ARGB_8888 : Nat := 5
def ARGB_8332 : Nat := 6
def I8 : Nat := 7
def AI88 : Nat := 8
def MONOCHROME : Nat := 9
def V_Y1_U_Y0 : Nat := 10
def Y1_V_Y0_U : Nat := 11
def PVRTC2 : Nat := 12
def PVRTC4 : Nat := 13
def ARGB_4444_SEC : Nat := 0x10
def ARGB_1555_SEC : Nat := 0x11
def ARGB_8888_SEC : Nat := 0x12
def RGB_565_SEC : Nat := 0x13
def RGB_555_SEC : Nat := 0x14
def RGB_888_SEC : Nat := 0x15
def I8_SEC : Nat := 0x16
def AI88_SEC : Nat := 0x17
def PVRTC2_SEC : Nat := 0x18
def PVRTC4_SEC : Nat := 0x19
def BGRA_8888 : Nat := 0x1A
def DXT1 : Nat := 0x20
def DXT2 : Nat := 0x21
def DXT3 : Nat := 0x22
def DXT4 : Nat := 0x23
def DXT5 : Nat := 0x24
def RGB332 : Nat := 0x25
def AL_44 : Nat := 0x26
def LVU_655 : Nat := 0x27
def XLVU_8888 : Nat := 0x28
def QWVU_8888 : Nat := 0x29
def ABGR_2101010 : Nat := 0x2A
def ARGB_2101010 : Nat := 0x2B
def AWVU_2101010 : Nat := 0x2C
def GR_1616 : Nat := 0x2D
def VU_1616 : Nat := 0x2E
def ABGR_16161616 : Nat := 0x2F
def R_16F : Nat := 0x30
def GR_1616F : Nat := 0x31
def ABGR_16161616F : Nat := 0x32
def R_32F : Nat := 0x33
def GR_3232F : Nat := 0x34
def ABGR_32323232F : Nat := 0x35
def ETC : Nat := 0x36
def A8 : Nat := 0x40
def VU_88 : Nat := 0x41
def L16 : Nat := 0x42
def L8 : Nat := 0x43
def AL_88 : Nat := 0x44
def UYVY : Nat := 0x45
def YUY2 : Nat := 0x46

/-- The 55 enumerator values of ePVRLegacyPixelFormat, in source order. -/
def ePVRLegacyPixelFormatIds : List Nat :=
  [ ARGB_4444, ARGB_1555, RGB_565, RGB_555, RGB_888, ARGB_8888, ARGB_8332,
    I8, AI88, MONOCHROME, V_Y1_U_Y0, Y1_V_Y0_U, PVRTC2, PVRTC4,
    ARGB_4444_SEC, ARGB_1555_SEC, ARGB_8888_SEC, RGB_565_SEC, RGB_555_SEC,
    RGB_888_SEC, I8_SEC, AI88_SEC, PVRTC2_SEC, PVRTC4_SEC, BGRA_8888,
    DXT1, DXT2, DXT3, DXT4, DXT5, RGB332, AL_44, LVU_655, XLVU_8888,
    QWVU_8888, ABGR_2101010, ARGB_2101010, AWVU_2101010, GR_1616, VU_1616,
    ABGR_16161616, R_16F, GR_1616F, ABGR_16161616F, R_32F, GR_3232F,
    ABGR_32323232F, ETC, A8, VU_88, L16, L8, AL_88, UYVY, YUY2 ]

/-! ## Format classification and per-format metadata -/

/-- ePVRLegacyPixelFormatType (natimage.pvr.cpp lines 112-118). -/
inductive ePVRLegacyPixelFormatType where
  | UNKNOWN
  | RGBA
  | LUMINANCE
  | COMPRESSED
deriving DecidableEq, Repr

/-- getPVRLegacyPixelFormatType (natimage.pvr.cpp lines 120-180). -/
def getPVRLegacyPixelFormatType (format : Nat) : ePVRLegacyPixelFormatType :=
  if format = ARGB_4444 ∨ format = ARGB_1555 ∨ format = RGB_565 ∨
     format = RGB_555 ∨ format = RGB_888 ∨ format = ARGB_8888 ∨
     format = ARGB_8332 ∨ format = ARGB_4444_SEC ∨ format = ARGB_1555_SEC ∨
     format = ARGB_8888_SEC ∨ format = RGB_565_SEC ∨ format = RGB_555_SEC ∨
     format = RGB_888_SEC ∨ format = BGRA_8888 ∨ format = RGB332 ∨
     format = ABGR_2101010 ∨ format = ARGB_2101010 ∨ format = GR_1616 ∨
     format = ABGR_16161616 ∨ format = R_16F ∨ format = GR_1616F ∨
     format = ABGR_16161616F ∨ format = R_32F ∨ format = GR_3232F ∨
     format = ABGR_32323232F then
    ePVRLegacyPixelFormatType.RGBA
  else if format = I8 ∨ format = AI88 ∨ format = MONOCHROME ∨
          format = I8_SEC ∨ format = AI88_SEC ∨ format = AL_44 ∨
          format = L16 ∨ format = L8 ∨ format = AL_88 then
    ePVRLegacyPixelFormatType.LUMINANCE
  else if format = V_Y1_U_Y0 ∨ format = Y1_V_Y0_U ∨ format = PVRTC2 ∨
          format = PVRTC4 ∨ format = PVRTC2_SEC ∨ format = PVRTC4_SEC ∨
          format = DXT1 ∨ format = DXT2 ∨ format = DXT3 ∨ format = DXT4 ∨
          format = DXT5 ∨ format = ETC ∨ format = UYVY ∨ format = YUY2 then
    ePVRLegacyPixelFormatType.COMPRESSED
  else
    ePVRLegacyPixelFormatType.UNKNOWN

/-- isValidPVRLegacyPixelFormat (natimage.pvr.cpp lines 3196-3257), the
negated-conjunction chain translated literally; note that plain RGB_888
does not appear among the 54 compared enumerators. -/
def isValidPVRLegacyPixelFormat (pixelFormat : Nat) : Bool :=
  if pixelFormat != ARGB_4444 &&
     pixelFormat != ARGB_1555 &&
     pixelFormat != RGB_565 &&
     pixelFormat != RGB_555 &&
     pixelFormat != ARGB_8888 &&
     pixelFormat != ARGB_8332 &&
     pixelFormat != I8 &&
     pixelFormat != AI88 &&
     pixelFormat != MONOCHROME &&
     pixelFormat != V_Y1_U_Y0 &&
     pixelFormat != Y1_V_Y0_U &&
     pixelFormat != PVRTC2 &&
     pixelFormat != PVRTC4 &&
     pixelFormat != ARGB_4444_SEC &&
     pixelFormat != ARGB_1555_SEC &&
     pixelFormat != ARGB_8888_SEC &&
     pixelFormat != RGB_565_SEC &&
     pixelFormat != RGB_555_SEC &&
     pixelFormat != RGB_888_SEC &&
     pixelFormat != I8_SEC &&
     pixelFormat != AI88_SEC &&
     pixelFormat != PVRTC2_SEC &&
     pixelFormat != PVRTC4_SEC &&
     pixelFormat != BGRA_8888 &&
     pixelFormat != DXT1 &&
     pixelFormat != DXT2 &&
     pixelFormat != DXT3 &&
     pixelFormat != DXT4 &&
     pixelFormat != DXT5 &&
     pixelFormat != RGB332 &&
     pixelFormat != AL_44 &&
     pixelFormat != LVU_655 &&
     pixelFormat != XLVU_8888 &&
     pixelFormat != QWVU_8888 &&
     pixelFormat != ABGR_2101010 &&
     pixelFormat != ARGB_2101010 &&
     pixelFormat != AWVU_2101010 &&
     pixelFormat != GR_1616 &&
     pixelFormat != VU_1616 &&
     pixelFormat != ABGR_16161616 &&
     pixelFormat != R_16F &&
     pixelFormat != GR_1616F &&
     pixelFormat != ABGR_16161616F &&
     pixelFormat != R_32F &&
     pixelFormat != GR_3232F &&
     pixelFormat != ABGR_32323232F &&
     pixelFormat != ETC &&
     pixelFormat != A8 &&
     pixelFormat != VU_88 &&
     pixelFormat != L16 &&
     pixelFormat != L8 &&
     pixelFormat != AL_88 &&
     pixelFormat != UYVY &&
     pixelFormat != YUY2 then
    false
  else
    true

/-- getPVRLegacyFormatDepth (natimage.pvr.cpp lines 1471-1545); the
fall-through assert returns 0. -/
def getPVRLegacyFormatDepth (format : Nat) : Nat :=
  if format = ARGB_4444 ∨ format = ARGB_1555 ∨ format = RGB_565 ∨
     format = RGB_555 ∨ format = ARGB_8332 ∨ format = AI88 ∨
     format = ARGB_4444_SEC ∨ format = ARGB_1555_SEC ∨ format = RGB_565_SEC ∨
     format = RGB_555_SEC ∨ format = AI88_SEC ∨ format = LVU_655 ∨
     format = R_16F ∨ format = VU_88 ∨ format = L16 ∨ format = AL_88 then
    16
  else if format = RGB_888 ∨ format = RGB_888_SEC then
    24
  else if format = ARGB_8888 ∨ format = ARGB_8888_SEC ∨ format = BGRA_8888 ∨
          format = XLVU_8888 ∨ format = QWVU_8888 ∨ format = ABGR_2101010 ∨
          format = ARGB_2101010 ∨ format = AWVU_2101010 ∨ format = GR_1616 ∨
          format = VU_1616 ∨ format = GR_1616F ∨ format = R_32F then
    32
  else if format = I8 ∨ format = V_Y1_U_Y0 ∨ format = Y1_V_Y0_U ∨
          format = UYVY ∨ format = YUY2 ∨ format = I8_SEC ∨ format = DXT2 ∨
          format = DXT3 ∨ format = DXT4 ∨ format = DXT5 ∨ format = RGB332 ∨
          format = AL_44 ∨ format = A8 ∨ format = L8 then
    8
  else if format = MONOCHROME then
    1
  else if format = PVRTC2 ∨ format = PVRTC2_SEC then
    2
  else if format = PVRTC4 ∨ format = PVRTC4_SEC ∨ format = DXT1 ∨
          format = ETC then
    4
  else if format = ABGR_16161616 ∨ format = ABGR_16161616F ∨
          format = GR_3232F then
    64
  else if format = ABGR_32323232F then
    128
  else
    0

/-! ## Row sizes and surface dimensions -/

/-- Modelled from the spec: the ALIGN_SIZE macro (shared headers, not in
the provided sources) rounds a size up to the nearest multiple of the
given alignment. -/
def ALIGN_SIZE (x n : Nat) : Nat := (x + n - 1) / n * n

/-- Modelled from the spec: getRasterDataRowSize (pixelutil.hxx, not in
the provided sources) computes ceil(width times depth over 8) bytes and
rounds up to the row alignment. -/
def getRasterDataRowSize (surfWidth depth alignment : Nat) : Nat :=
  ALIGN_SIZE ((surfWidth * depth + 7) / 8) alignment

/-- getPVRNativeImageRowAlignment (natimage.pvr.cpp lines 100-104). -/
def getPVRNativeImageRowAlignment : Nat := 1

/-- getPVRNativeImageRasterDataRowSize (natimage.pvr.cpp lines 106-109). -/
def getPVRNativeImageRasterDataRowSize (surfWidth depth : Nat) : Nat :=
  getRasterDataRowSize surfWidth depth getPVRNativeImageRowAlignment

/-- Modelled from the spec: getRasterDataSizeByRowSize (pixelutil.hxx,
not in the provided sources): a layer's byte size is row size times
surface height. -/
def getRasterDataSizeByRowSize (rowSize height : Nat) : Nat := rowSize * height

/-- Modelled from the spec: getPVRCompressionBlockDimensions
(txdread.pvr.hxx, not in the provided sources) looks the PVRTC
compression block dimensions up by bit depth; the source comment at the
call site documents them as 16x8 (2 bpp) and 8x8 (4 bpp) blocks. -/
def getPVRCompressionBlockDimensions (depth : Nat) : Nat × Nat :=
  if depth = 2 then (16, 8) else (8, 8)

/-- getPVRLegacyFormatSurfaceDimensions (natimage.pvr.cpp lines
1575-1619). -/
def getPVRLegacyFormatSurfaceDimensions (format layerWidth layerHeight : Nat) :
    Nat × Nat :=
  if format = V_Y1_U_Y0 ∨ format = Y1_V_Y0_U ∨ format = UYVY ∨
     format = YUY2 then
    (ALIGN_SIZE layerWidth 2, ALIGN_SIZE layerHeight 2)
  else if format = DXT1 ∨ format = DXT2 ∨ format = DXT3 ∨ format = DXT4 ∨
          format = DXT5 ∨ format = ETC then
    (ALIGN_SIZE layerWidth 4, ALIGN_SIZE layerHeight 4)
  else if format = PVRTC2 ∨ format = PVRTC4 ∨ format = PVRTC2_SEC ∨
          format = PVRTC4_SEC then
    let dims := getPVRCompressionBlockDimensions (getPVRLegacyFormatDepth format)
    (ALIGN_SIZE layerWidth dims.1, ALIGN_SIZE layerHeight dims.2)
  else
    (layerWidth, layerHeight)

/-! ## Endianness model

The endian wrappers (`endian::little_endian` / `endian::big_endian`)
live outside the provided sources; per the spec they transparently
byte-swap a fixed-width value on every read and write.  A stored texel
is modelled as the natural number whose base-256 digits are the memory
bytes in address order; storing through the little-endian wrapper
leaves the value unchanged while the big-endian wrapper reverses the
byte order, and reading applies the same transformation again. -/

def toBytesLE : Nat → Nat → List Nat
  | 0, _ => []
  | k + 1, n => n % 256 :: toBytesLE k (n / 256)

def fromBytesLE : List Nat → Nat
  | [] => 0
  | b :: bs => b + 256 * fromBytesLE bs

/-- Byte-order reversal of a k-byte value. -/
def swapBytes (k n : Nat) : Nat := fromBytesLE (toBytesLE k n).reverse

/-- Modelled from the spec: the memory image of a k-byte struct written
through an endian wrapper (identity for little endian, byte reversal
for big endian); reading applies the same map. -/
def endianRepr (isLittleEndian : Bool) (k v : Nat) : Nat :=
  if isLittleEndian then v else swapBytes k v

/-- A texel buffer: texel index to stored memory word. -/
abbrev PVRBuffer := Nat → Nat

/-! ## Color scaling helpers -/

/-- Modelled from the spec: destscalecolor (pixelutil.hxx, not in the
provided sources) rescales an N-bit channel value with maximum maxv to
8 bits, linear round-to-nearest. -/
def destscalecolor (v maxv : Nat) : Nat := (v * 255 * 2 + maxv) / (maxv * 2)

/-- Modelled from the spec: putscalecolor (pixelutil.hxx, not in the
provided sources) rescales an 8-bit channel value to an N-bit channel
with maximum maxv, linear round-to-nearest. -/
def putscalecolor (color maxv : Nat) : Nat := (color * maxv * 2 + 255) / 510

/-- Modelled from the spec: rgb2lum (shared pixel utilities, not in the
provided sources) converts RGB to luminance via the standard luma
formula; pvrColorDispatcher::setRGBA computes it and then discards it. -/
def rgb2lum (r g b : Nat) : Nat := (r * 299 + g * 587 + b * 114 + 500) / 1000

/-! ## pvrColorDispatcher texel codec (natimage.pvr.cpp lines 230-974)

Each branch mirrors the local bit-field struct of the source: the first
struct member occupies the least-significant bits of the stored word,
multi-byte members sit at increasing byte addresses.  The three
float-sample branches (R_32F, GR_3232F, ABGR_32323232F) are the one
part not modelled — they store IEEE-754 bit patterns — and are mapped
to `none` here; no claim below relies on them. -/

/-- pvrColorDispatcher::browsetexelrgba (lines 230-537).  The reference
outputs of the C++ code keep their previous value when a branch does
not assign them, so the caller's current values are taken as inputs
(redIn, greenIn, blueIn, alphaIn); note the ABGR_16161616 branch never
assigns its red output. -/
def browsetexelrgba (isLittleEndian : Bool) (pixelFormat : Nat)
    (srcTexels : PVRBuffer) (colorIndex : Nat)
    (redIn greenIn blueIn alphaIn : Nat) : Option (Nat × Nat × Nat × Nat) :=
  if pixelFormat = ARGB_4444 ∨ pixelFormat = ARGB_4444_SEC then
    -- struct: alpha:4, blue:4, green:4, red:4
    let w := endianRepr isLittleEndian 2 (srcTexels colorIndex)
    some (destscalecolor (w / 4096 % 16) 15, destscalecolor (w / 256 % 16) 15,
          destscalecolor (w / 16 % 16) 15, destscalecolor (w % 16) 15)
  else if pixelFormat = ARGB_1555 ∨ pixelFormat = ARGB_1555_SEC then
    -- struct: alpha:1, blue:5, green:5, red:5
    let w := endianRepr isLittleEndian 2 (srcTexels colorIndex)
    some (destscalecolor (w / 2048 % 32) 31, destscalecolor (w / 64 % 32) 31,
          destscalecolor (w / 2 % 32) 31, if w % 2 ≠ 0 then 255 else 0)
  else if pixelFormat = RGB_565 ∨ pixelFormat = RGB_565_SEC then
    -- struct: blue:5, green:6, red:5
    let w := endianRepr isLittleEndian 2 (srcTexels colorIndex)
    some (destscalecolor (w / 2048 % 32) 31, destscalecolor (w / 32 % 64) 63,
          destscalecolor (w % 32) 31, 255)
  else if pixelFormat = RGB_555 ∨ pixelFormat = RGB_555_SEC then
    -- struct: unused:1, blue:5, green:5, red:5
    let w := endianRepr isLittleEndian 2 (srcTexels colorIndex)
    some (destscalecolor (w / 2048 % 32) 31, destscalecolor (w / 64 % 32) 31,
          destscalecolor (w / 2 % 32) 31, 255)
  else if pixelFormat = RGB_888 ∨ pixelFormat = RGB_888_SEC then
    -- struct: blue (byte 0), green (byte 1), red (byte 2)
    let w := endianRepr isLittleEndian 3 (srcTexels colorIndex)
    some (destscalecolor (w / 65536 % 256) 255, destscalecolor (w / 256 % 256) 255,
          destscalecolor (w % 256) 255, 255)
  else if pixelFormat = ARGB_8888 ∨ pixelFormat = ARGB_8888_SEC then
    -- struct: red (byte 0), green, blue, alpha
    let w := endianRepr isLittleEndian 4 (srcTexels colorIndex)
    some (destscalecolor (w % 256) 255, destscalecolor (w / 256 % 256) 255,
          destscalecolor (w / 65536 % 256) 255, destscalecolor (w / 16777216 % 256) 255)
  else if pixelFormat = ARGB_8332 then
    -- struct: alpha:8, red:3, green:3, blue:2
    let w := endianRepr isLittleEndian 2 (srcTexels colorIndex)
    some (destscalecolor (w / 256 % 8) 7, destscalecolor (w / 2048 % 8) 7,
          destscalecolor (w / 16384 % 4) 3, destscalecolor (w % 256) 255)
  else if pixelFormat = BGRA_8888 then
    -- struct: blue (byte 0), green, red, alpha
    let w := endianRepr isLittleEndian 4 (srcTexels colorIndex)
    some (destscalecolor (w / 65536 % 256) 255, destscalecolor (w / 256 % 256) 255,
          destscalecolor (w % 256) 255, destscalecolor (w / 16777216 % 256) 255)
  else if pixelFormat = RGB332 then
    -- struct: red:3, green:3, blue:2
    let w := endianRepr isLittleEndian 1 (srcTexels colorIndex)
    some (destscalecolor (w % 8) 7, destscalecolor (w / 8 % 8) 7,
          destscalecolor (w / 64 % 4) 3, 255)
  else if pixelFormat = ABGR_2101010 then
    -- struct (browse side): alpha:2, red:10, green:10, blue:10
    let w := endianRepr isLittleEndian 4 (srcTexels colorIndex)
    some (destscalecolor (w / 4 % 1024) 1023, destscalecolor (w / 4096 % 1024) 1023,
          destscalecolor (w / 4194304 % 1024) 1023, destscalecolor (w % 4) 3)
  else if pixelFormat = ARGB_2101010 then
    -- struct (browse side): alpha:2, blue:10, green:10, red:10
    let w := endianRepr isLittleEndian 4 (srcTexels colorIndex)
    some (destscalecolor (w / 4194304 % 1024) 1023, destscalecolor (w / 4096 % 1024) 1023,
          destscalecolor (w / 4 % 1024) 1023, destscalecolor (w % 4) 3)
  else if pixelFormat = GR_1616 then
    -- struct: green (16 bits), red (16 bits)
    let w := endianRepr isLittleEndian 4 (srcTexels colorIndex)
    some (destscalecolor (w / 65536 % 65536) 65535, destscalecolor (w % 65536) 65535,
          0, 255)
  else if pixelFormat = ABGR_16161616 then
    -- struct: alpha, blue, green, red (16 bits each); the source
    -- assigns alphaOut, blueOut, greenOut and then blueOut again, so
    -- the red output keeps the caller's value.
    let w := endianRepr isLittleEndian 8 (srcTexels colorIndex)
    some (redIn, destscalecolor (w / 4294967296 % 65536) 65535,
          destscalecolor (w / 65536 % 65536) 65535, destscalecolor (w % 65536) 65535)
  else if pixelFormat = R_32F ∨ pixelFormat = GR_3232F ∨
          pixelFormat = ABGR_32323232F then
    -- float sample layouts, not modelled (see section comment)
    none
  else if pixelFormat = A8 then
    let w := endianRepr isLittleEndian 1 (srcTexels colorIndex)
    some (0, 0, 0, destscalecolor (w % 256) 255)
  else
    none

/-- pvrColorDispatcher::puttexelrgba (lines 539-836).  Returns the
updated buffer, or none when no branch matched (the source then returns
false without writing).  The RGB_555 branch leaves its 1-bit unused
field unassigned in the source; it is stored as 0 here. -/
def puttexelrgba (isLittleEndian : Bool) (pixelFormat : Nat)
    (dstTexels : PVRBuffer) (colorIndex : Nat)
    (red green blue alpha : Nat) : Option PVRBuffer :=
  if pixelFormat = ARGB_4444 ∨ pixelFormat = ARGB_4444_SEC then
    -- struct: alpha:4, blue:4, green:4, red:4
    let v := putscalecolor alpha 15 + 16 * (putscalecolor blue 15 +
      16 * (putscalecolor green 15 + 16 * putscalecolor red 15))
    some (Function.update dstTexels colorIndex (endianRepr isLittleEndian 2 v))
  else if pixelFormat = ARGB_1555 ∨ pixelFormat = ARGB_1555_SEC then
    -- struct: alpha:1, blue:5, green:5, red:5; alpha bit by presence
    let v := (if alpha = 255 then 1 else 0) + 2 * (putscalecolor blue 31 +
      32 * (putscalecolor green 31 + 32 * putscalecolor red 31))
    some (Function.update dstTexels colorIndex (endianRepr isLittleEndian 2 v))
  else if pixelFormat = RGB_565 ∨ pixelFormat = RGB_565_SEC then
    -- struct: blue:5, green:6, red:5
    let v := putscalecolor blue 31 + 32 * (putscalecolor green 63 +
      64 * putscalecolor red 31)
    some (Function.update dstTexels colorIndex (endianRepr isLittleEndian 2 v))
  else if pixelFormat = RGB_555 ∨ pixelFormat = RGB_555_SEC then
    -- struct: unused:1, blue:5, green:5, red:5
    let v := 2 * (putscalecolor blue 31 + 32 * (putscalecolor green 31 +
      32 * putscalecolor red 31))
    some (Function.update dstTexels colorIndex (endianRepr isLittleEndian 2 v))
  else if pixelFormat = RGB_888 ∨ pixelFormat = RGB_888_SEC then
    -- struct (put side): red (byte 0), green (byte 1), blue (byte 2)
    let v := putscalecolor red 255 + 256 * (putscalecolor green 255 +
      256 * putscalecolor blue 255)
    some (Function.update dstTexels colorIndex (endianRepr isLittleEndian 3 v))
  else if pixelFormat = ARGB_8888 ∨ pixelFormat = ARGB_8888_SEC then
    -- struct: red, green, blue, alpha
    let v := putscalecolor red 255 + 256 * (putscalecolor green 255 +
      256 * (putscalecolor blue 255 + 256 * putscalecolor alpha 255))
    some (Function.update dstTexels colorIndex (endianRepr isLittleEndian 4 v))
  else if pixelFormat = ARGB_8332 then
    -- struct: alpha:8, red:3, green:3, blue:2
    let v := putscalecolor alpha 255 + 256 * (putscalecolor red 7 +
      8 * (putscalecolor green 7 + 8 * putscalecolor blue 3))
    some (Function.update dstTexels colorIndex (endianRepr isLittleEndian 2 v))
  else if pixelFormat = BGRA_8888 then
    -- struct: blue, green, red, alpha
    let v := putscalecolor blue 255 + 256 * (putscalecolor green 255 +
      256 * (putscalecolor red 255 + 256 * putscalecolor alpha 255))
    some (Function.update dstTexels colorIndex (endianRepr isLittleEndian 4 v))
  else if pixelFormat = RGB332 then
    -- struct: red:3, green:3, blue:2
    let v := putscalecolor red 7 + 8 * (putscalecolor green 7 +
      8 * putscalecolor blue 3)
    some (Function.update dstTexels colorIndex (endianRepr isLittleEndian 1 v))
  else if pixelFormat = ABGR_2101010 then
    -- struct (put side): alpha:2, blue:10, green:10, red:10
    let v := putscalecolor alpha 3 + 4 * (putscalecolor blue 1023 +
      1024 * (putscalecolor green 1023 + 1024 * putscalecolor red 1023))
    some (Function.update dstTexels colorIndex (endianRepr isLittleEndian 4 v))
  else if pixelFormat = ARGB_2101010 then
    -- struct (put side): alpha:2, red:10, green:10, blue:10
    let v := putscalecolor alpha 3 + 4 * (putscalecolor red 1023 +
      1024 * (putscalecolor green 1023 + 1024 * putscalecolor blue 1023))
    some (Function.update dstTexels colorIndex (endianRepr isLittleEndian 4 v))
  else if pixelFormat = GR_1616 then
    -- struct: green (16 bits), red (16 bits)
    let v := putscalecolor green 65535 + 65536 * putscalecolor red 65535
    some (Function.update dstTexels colorIndex (endianRepr isLittleEndian 4 v))
  else if pixelFormat = ABGR_16161616 then
    -- struct: alpha, blue, green, red (16 bits each)
    let v := putscalecolor alpha 65535 + 65536 * (putscalecolor blue 65535 +
      65536 * (putscalecolor green 65535 + 65536 * putscalecolor red 65535))
    some (Function.update dstTexels colorIndex (endianRepr isLittleEndian 8 v))
  else if pixelFormat = R_32F ∨ pixelFormat = GR_3232F ∨
          pixelFormat = ABGR_32323232F then
    -- float sample layouts, not modelled (see section comment)
    none
  else
    none

/-- pvrColorDispatcher::browsetexellum (lines 838-904). -/
def browsetexellum (isLittleEndian : Bool) (pixelFormat : Nat)
    (srcTexels : PVRBuffer) (colorIndex : Nat) : Option (Nat × Nat) :=
  if pixelFormat = I8 ∨ pixelFormat = I8_SEC ∨ pixelFormat = L8 then
    let w := endianRepr isLittleEndian 1 (srcTexels colorIndex)
    some (destscalecolor (w % 256) 255, 255)
  else if pixelFormat = AI88 ∨ pixelFormat = AI88_SEC ∨ pixelFormat = AL_88 then
    -- struct: intensity (byte 0), alpha (byte 1)
    let w := endianRepr isLittleEndian 2 (srcTexels colorIndex)
    some (destscalecolor (w % 256) 255, destscalecolor (w / 256 % 256) 255)
  else if pixelFormat = AL_44 then
    -- struct: luminance:4, alpha:4
    let w := endianRepr isLittleEndian 1 (srcTexels colorIndex)
    some (destscalecolor (w % 16) 15, destscalecolor (w / 16 % 16) 15)
  else if pixelFormat = L16 then
    let w := endianRepr isLittleEndian 2 (srcTexels colorIndex)
    some (destscalecolor (w % 65536) 65535, 255)
  else
    none

/-- pvrColorDispatcher::puttexellum (lines 906-974). -/
def puttexellum (isLittleEndian : Bool) (pixelFormat : Nat)
    (dstTexels : PVRBuffer) (colorIndex : Nat)
    (lum alpha : Nat) : Option PVRBuffer :=
  if pixelFormat = I8 ∨ pixelFormat = I8_SEC ∨ pixelFormat = L8 then
    let v := putscalecolor lum 255
    some (Function.update dstTexels colorIndex (endianRepr isLittleEndian 1 v))
  else if pixelFormat = AI88 ∨ pixelFormat = AI88_SEC ∨ pixelFormat = AL_88 then
    let v := putscalecolor lum 255 + 256 * putscalecolor alpha 255
    some (Function.update dstTexels colorIndex (endianRepr isLittleEndian 2 v))
  else if pixelFormat = AL_44 then
    let v := putscalecolor lum 15 + 16 * putscalecolor alpha 15
    some (Function.update dstTexels colorIndex (endianRepr isLittleEndian 1 v))
  else if pixelFormat = L16 then
    let v := putscalecolor lum 65535
    some (Function.update dstTexels colorIndex (endianRepr isLittleEndian 2 v))
  else
    none

/-! ## pvrColorDispatcher public entry points (lines 976-1143) -/

/-- pvrColorDispatcher::getRGBA; the color model is the classification
of the pixel format, as at every construction site of the dispatcher. -/
def pvrGetRGBA (isLittleEndian : Bool) (pixelFormat : Nat)
    (srcTexels : PVRBuffer) (colorIndex : Nat)
    (redIn greenIn blueIn alphaIn : Nat) :
    Except String (Option (Nat × Nat × Nat × Nat)) :=
  match getPVRLegacyPixelFormatType pixelFormat with
  | ePVRLegacyPixelFormatType.RGBA =>
    Except.ok (browsetexelrgba isLittleEndian pixelFormat srcTexels colorIndex
      redIn greenIn blueIn alphaIn)
  | ePVRLegacyPixelFormatType.LUMINANCE =>
    match browsetexellum isLittleEndian pixelFormat srcTexels colorIndex with
    | some (lum, alpha) => Except.ok (some (lum, lum, lum, alpha))
    | none => Except.ok none
  | _ => Except.error "invalid color model in RGBA pixel fetch algorithm of PVR native image data"

/-- pvrColorDispatcher::setRGBA (lines 1067-1105): on a LUMINANCE color
model the source computes rgb2lum and then sets didPut to false without
writing anything. -/
def pvrSetRGBA (isLittleEndian : Bool) (pixelFormat : Nat)
    (dstTexels : PVRBuffer) (colorIndex : Nat)
    (red green blue alpha : Nat) : Except String (Bool × PVRBuffer) :=
  match getPVRLegacyPixelFormatType pixelFormat with
  | ePVRLegacyPixelFormatType.RGBA =>
    match puttexelrgba isLittleEndian pixelFormat dstTexels colorIndex
        red green blue alpha with
    | some newTexels => Except.ok (true, newTexels)
    | none => Except.ok (false, dstTexels)
  | ePVRLegacyPixelFormatType.LUMINANCE =>
    let _lum := rgb2lum red green blue
    Except.ok (false, dstTexels)
  | _ => Except.error "invalid color model in RGBA pixel set algorithm of PVR native image data"

/-- pvrColorDispatcher::getLuminance (lines 1023-1065). -/
def pvrGetLuminance (isLittleEndian : Bool) (pixelFormat : Nat)
    (srcTexels : PVRBuffer) (colorIndex : Nat)
    (redIn greenIn blueIn alphaIn : Nat) : Except String (Option (Nat × Nat)) :=
  match getPVRLegacyPixelFormatType pixelFormat with
  | ePVRLegacyPixelFormatType.RGBA =>
    match browsetexelrgba isLittleEndian pixelFormat srcTexels colorIndex
        redIn greenIn blueIn alphaIn with
    | some (r, g, b, a) => Except.ok (some (rgb2lum r g b, a))
    | none => Except.ok none
  | ePVRLegacyPixelFormatType.LUMINANCE =>
    Except.ok (browsetexellum isLittleEndian pixelFormat srcTexels colorIndex)
  | _ => Except.error "invalid color model in LUM pixel fetch algorithm of PVR native image data"

/-- pvrColorDispatcher::setLuminance (lines 1107-1143). -/
def pvrSetLuminance (isLittleEndian : Bool) (pixelFormat : Nat)
    (dstTexels : PVRBuffer) (colorIndex : Nat)
    (lum alpha : Nat) : Except String (Bool × PVRBuffer) :=
  match getPVRLegacyPixelFormatType pixelFormat with
  | ePVRLegacyPixelFormatType.RGBA =>
    pvrSetRGBA isLittleEndian pixelFormat dstTexels colorIndex lum lum lum alpha
  | ePVRLegacyPixelFormatType.LUMINANCE =>
    match puttexellum isLittleEndian pixelFormat dstTexels colorIndex lum alpha with
    | some newTexels => Except.ok (true, newTexels)
    | none => Except.ok (false, dstTexels)
  | _ => Except.error "invalid color model in LUM pixel put algorithm of PVR native image data"

/-! ## Legacy header parsing (natimage.pvr.cpp lines 1697-1749, 3036-3194)

The input stream is a byte list; readStreamStruct fails when fewer
bytes remain than the struct needs. -/

/-- One 32-bit field read through an endian wrapper. -/
def takeU32 (isLittleEndian : Bool) : List Nat → Option (Nat × List Nat)
  | b0 :: b1 :: b2 :: b3 :: rest =>
    some (if isLittleEndian then
            b0 + 256 * (b1 + 256 * (b2 + 256 * b3))
          else
            b3 + 256 * (b2 + 256 * (b1 + 256 * b0)), rest)
  | _ => none

/-- pvr_legacy_formatField.pixelFormat (8 bits, lines 1697-1710). -/
def formatField_pixelFormat (f : Nat) : Nat := f % 256

/-- pvr_legacy_formatField.mipmapsPresent (bit 8). -/
def formatField_mipmapsPresent (f : Nat) : Bool := f / 256 % 2 = 1

/-- pvr_legacy_formatField.dataIsTwiddled (bit 9). -/
def formatField_dataIsTwiddled (f : Nat) : Bool := f / 512 % 2 = 1

/-- pvr_legacy_formatField.containsNormalData (bit 10). -/
def formatField_containsNormalData (f : Nat) : Bool := f / 1024 % 2 = 1

/-- pvr_legacy_formatField.hasBorder (bit 11). -/
def formatField_hasBorder (f : Nat) : Bool := f / 2048 % 2 = 1

/-- pvr_legacy_formatField.isCubeMap (bit 12). -/
def formatField_isCubeMap (f : Nat) : Bool := f / 4096 % 2 = 1

/-- pvr_legacy_formatField.mipmapsHaveDebugColoring (bit 13). -/
def formatField_mipmapsHaveDebugColoring (f : Nat) : Bool := f / 8192 % 2 = 1

/-- pvr_legacy_formatField.isVolumeTexture (bit 14). -/
def formatField_isVolumeTexture (f : Nat) : Bool := f / 16384 % 2 = 1

/-- pvr_legacy_formatField.hasAlphaChannel_pvrtc (bit 15). -/
def formatField_hasAlphaChannel_pvrtc (f : Nat) : Bool := f / 32768 % 2 = 1

/-- pvr_legacy_formatField.isVerticallyFlipped (bit 16). -/
def formatField_isVerticallyFlipped (f : Nat) : Bool := f / 65536 % 2 = 1

/-- The fields readLegacyVersionHeader hands back to its caller. -/
structure PVRLegacyHeader where
  width : Nat
  height : Nat
  mipmapCount : Nat
  formatField : Nat
  surfaceSize : Nat
  bitsPerPixel : Nat
  redMask : Nat
  greenMask : Nat
  blueMask : Nat
  alphaMask : Nat
  isLittleEndian : Bool
deriving DecidableEq, Repr

/-- pvr_header_ver1 read in the given byte order (lines 1712-1728):
height, width, mipmapCount, flags, surfaceSize, bitsPerPixel and the
four (ignored) channel masks. -/
def readPVRHeaderVer1 (isLittleEndian : Bool) (bs : List Nat) :
    Option PVRLegacyHeader := do
  let (height, bs) ← takeU32 isLittleEndian bs
  let (width, bs) ← takeU32 isLittleEndian bs
  let (mipmapCount, bs) ← takeU32 isLittleEndian bs
  let (flags, bs) ← takeU32 isLittleEndian bs
  let (surfaceSize, bs) ← takeU32 isLittleEndian bs
  let (bitsPerPixel, bs) ← takeU32 isLittleEndian bs
  let (redMask, bs) ← takeU32 isLittleEndian bs
  let (greenMask, bs) ← takeU32 isLittleEndian bs
  let (blueMask, bs) ← takeU32 isLittleEndian bs
  let (alphaMask, _) ← takeU32 isLittleEndian bs
  some { width, height, mipmapCount, formatField := flags, surfaceSize,
         bitsPerPixel, redMask, greenMask, blueMask, alphaMask, isLittleEndian }

/-- pvr_header_ver2 read in the given byte order (lines 1730-1749):
the ver1 fields plus pvr_id (checked against 0x21525650) and
numberOfSurfaces. -/
def readPVRHeaderVer2 (isLittleEndian : Bool) (bs : List Nat) :
    Option PVRLegacyHeader := do
  let (height, bs) ← takeU32 isLittleEndian bs
  let (width, bs) ← takeU32 isLittleEndian bs
  let (mipmapCount, bs) ← takeU32 isLittleEndian bs
  let (flags, bs) ← takeU32 isLittleEndian bs
  let (surfaceSize, bs) ← takeU32 isLittleEndian bs
  let (bitsPerPixel, bs) ← takeU32 isLittleEndian bs
  let (redMask, bs) ← takeU32 isLittleEndian bs
  let (greenMask, bs) ← takeU32 isLittleEndian bs
  let (blueMask, bs) ← takeU32 isLittleEndian bs
  let (alphaMask, bs) ← takeU32 isLittleEndian bs
  let (pvr_id, bs) ← takeU32 isLittleEndian bs
  let (_numberOfSurfaces, _) ← takeU32 isLittleEndian bs
  if pvr_id ≠ 0x21525650 then
    none
  else
    some { width, height, mipmapCount, formatField := flags, surfaceSize,
           bitsPerPixel, redMask, greenMask, blueMask, alphaMask, isLittleEndian }

/-- readLegacyVersionHeader (lines 3044-3194).  The four leading bytes
are decoded through header_data_union (lines 3055-3063); in the source
BOTH union members le_header_size and be_header_size are declared
endian::little_endian, so the big-endian candidate below is the
little-endian interpretation as well, and the two big-endian branches
can never fire. -/
def readLegacyVersionHeader (bs : List Nat) : Option PVRLegacyHeader :=
  match bs with
  | b0 :: b1 :: b2 :: b3 :: rest =>
    let le_header_size := b0 + 256 * (b1 + 256 * (b2 + 256 * b3))
    let be_header_size := b0 + 256 * (b1 + 256 * (b2 + 256 * b3))
    if le_header_size = 44 then
      readPVRHeaderVer1 true rest
    else if le_header_size = 52 then
      readPVRHeaderVer2 true rest
    else if be_header_size = 44 then
      readPVRHeaderVer1 false rest
    else if be_header_size = 52 then
      readPVRHeaderVer2 false rest
    else
      none
  | _ => none

/-! ## ReadNativeImage (natimage.pvr.cpp lines 3363-3593) -/

/-- Modelled from the spec: mipGenLevelGenerator::isValidLevel (shared
mipmap helpers, not in the provided sources): a level is valid when
both dimensions are nonzero. -/
def mipGenIsValidLevel (w h : Nat) : Bool := w != 0 && h != 0

/-- Modelled from the spec: mipGenLevelGenerator::incrementLevel halves
each dimension with a floor of 1 and reports failure once both
dimensions have reached 1. -/
def mipGenIncrementLevel (w h : Nat) : Option (Nat × Nat) :=
  if w = 1 && h = 1 then none else some (max (w / 2) 1, max (h / 2) 1)

/-- Modelled from the spec: power-of-two test used by the size rules. -/
def isPowerOfTwoSize (n : Nat) : Bool := n != 0 && (n &&& (n - 1)) == 0

/-- Modelled from the spec: the twiddling size rule of ReadNativeImage
(lines 3440-3447): powerOfTwo and squared are both demanded. -/
def twiddleSizeRulesValid (w h : Nat) : Bool :=
  isPowerOfTwoSize w && isPowerOfTwoSize h && w == h

/-- One stored mipmap layer (genmip::mipmapLayer as used by
pvrNativeImage, lines 1814-1819); the texel pointer is an abstract
buffer id. -/
structure mipmapLayer where
  width : Nat
  height : Nat
  layerWidth : Nat
  layerHeight : Nat
  texels : Nat
  dataSize : Nat
deriving DecidableEq, Repr

/-- pvrNativeImage (lines 1766-1823), without the engine pointer. -/
structure pvrNativeImage where
  pixelFormat : Nat
  dataIsTwiddled : Bool
  containsNormalData : Bool
  hasBorder : Bool
  isCubeMap : Bool
  mipmapsHaveDebugColoring : Bool
  isVolumeTexture : Bool
  hasAlphaChannel_pvrtc : Bool
  isVerticallyFlipped : Bool
  bitDepth : Nat
  mipmaps : List mipmapLayer
  isLittleEndian : Bool
deriving DecidableEq, Repr

/-- The validation prefix of ReadNativeImage (lines 3400-3460), from
pixel-format validation through the twiddling checks; returns the
soft warnings accumulated on success. -/
def pvrReadHeaderValidate (hdr : PVRLegacyHeader) : Except String (List String) :=
  let pixelFormat := formatField_pixelFormat hdr.formatField
  if !isValidPVRLegacyPixelFormat pixelFormat then
    Except.error "invalid PVR native image (legacy) pixel format"
  else
    let format_bitDepth := getPVRLegacyFormatDepth pixelFormat
    let warnings := if hdr.bitsPerPixel ≠ format_bitDepth then
      ["PVR native texture has an invalid bitsPerPixel value"] else []
    if formatField_isCubeMap hdr.formatField then
      Except.error "cubemap PVR native images not supported yet"
    else if formatField_isVolumeTexture hdr.formatField then
      Except.error "volume texture PVR native images not supported yet"
    else if formatField_isVerticallyFlipped hdr.formatField then
      Except.error "vertically flipped PVR native images not supported yet"
    else if formatField_dataIsTwiddled hdr.formatField &&
            !twiddleSizeRulesValid hdr.width hdr.height then
      Except.error "malformed PVR native image: image says it is twiddled but width and height are not POT and squared"
    else if formatField_dataIsTwiddled hdr.formatField &&
            !(getPVRLegacyPixelFormatType pixelFormat ==
              ePVRLegacyPixelFormatType.COMPRESSED) then
      Except.error "twiddled PVR native images are not supported"
    else
      Except.ok warnings

/-- The mipmap read loop of ReadNativeImage (lines 3495-3576).  The
stream is its count of remaining bytes (checkAhead fails when fewer
remain than a level needs).  An error carries the number of level
buffers allocated before the failure; the budget check and the stream
check both precede the allocation of the level. -/
def pvrReadMipLoop (pixelFormat format_bitDepth : Nat) :
    Nat → Bool → Nat → Nat → Nat → Nat → List mipmapLayer →
    Except (String × Nat) (List mipmapLayer × Nat × Nat)
  | 0, _, _, _, remaining, streamBytes, acc =>
    Except.ok (acc, remaining, streamBytes)
  | fuel + 1, isFirstIter, w, h, remaining, streamBytes, acc =>
    match if isFirstIter then some (w, h) else mipGenIncrementLevel w h with
    | none => Except.ok (acc, remaining, streamBytes)
    | some (mipLayerWidth, mipLayerHeight) =>
      let dims := getPVRLegacyFormatSurfaceDimensions pixelFormat
        mipLayerWidth mipLayerHeight
      let texRowSize := getPVRNativeImageRasterDataRowSize dims.1 format_bitDepth
      let texDataSize := getRasterDataSizeByRowSize texRowSize dims.2
      if remaining < texDataSize then
        Except.error ("too little surface data in PVR native image", acc.length)
      else if streamBytes < texDataSize then
        Except.error ("PVR native image stream has too few bytes for a mipmap surface", acc.length)
      else
        pvrReadMipLoop pixelFormat format_bitDepth fuel false
          mipLayerWidth mipLayerHeight
          (remaining - texDataSize) (streamBytes - texDataSize)
          (acc ++ [{ width := dims.1, height := dims.2,
                     layerWidth := mipLayerWidth, layerHeight := mipLayerHeight,
                     texels := acc.length, dataSize := texDataSize }])

/-- Result of a successful ReadNativeImage. -/
structure pvrReadResult where
  image : pvrNativeImage
  warnings : List String
  skippedBytes : Nat
deriving DecidableEq, Repr

/-- ReadNativeImage after header parsing (lines 3400-3593): validation,
property storage, the mipmap read loop, and the two soft post-loop
checks; errors carry the number of level buffers allocated. -/
def pvrReadNativeImage (hdr : PVRLegacyHeader) (streamBytes : Nat) :
    Except (String × Nat) pvrReadResult :=
  match pvrReadHeaderValidate hdr with
  | Except.error e => Except.error (e, 0)
  | Except.ok warnings0 =>
    let pixelFormat := formatField_pixelFormat hdr.formatField
    let format_bitDepth := getPVRLegacyFormatDepth pixelFormat
    let mipmapCount := hdr.mipmapCount + 1
    if !mipGenIsValidLevel hdr.width hdr.height then
      Except.error ("invalid image dimensions in PVR native image", 0)
    else
      match pvrReadMipLoop pixelFormat format_bitDepth mipmapCount true
          hdr.width hdr.height hdr.surfaceSize streamBytes [] with
      | Except.error e => Except.error e
      | Except.ok (layers, leftover, _) =>
        let warnings1 := if layers.length ≠ mipmapCount then
          ["PVR native image specified more mipmap layers than could be read"] else []
        let warnings2 := if leftover ≠ 0 then
          ["PVR native image has surface meta-data"] else []
        Except.ok
          { image :=
              { pixelFormat,
                dataIsTwiddled := formatField_dataIsTwiddled hdr.formatField,
                containsNormalData := formatField_containsNormalData hdr.formatField,
                hasBorder := formatField_hasBorder hdr.formatField,
                isCubeMap := false,
                mipmapsHaveDebugColoring :=
                  formatField_mipmapsHaveDebugColoring hdr.formatField,
                isVolumeTexture := false,
                hasAlphaChannel_pvrtc :=
                  formatField_hasAlphaChannel_pvrtc hdr.formatField,
                isVerticallyFlipped :=
                  formatField_isVerticallyFlipped hdr.formatField,
                bitDepth := format_bitDepth,
                mipmaps := layers,
                isLittleEndian := hdr.isLittleEndian },
            warnings := warnings0 ++ warnings1 ++ warnings2,
            skippedBytes := leftover }

/-! ## ReadFromNativeTexture, raw color acquisition path
(natimage.pvr.cpp lines 1868-2271)

The fetched source data (mipmap layers, their ownership flag, the
format link produced by getPVRLegacyRawColorFormatLink, the palette
test and the row-alignment test) enter as parameters; texel buffers
are abstract ids.  PixelAllocate is an oracle returning the id of the
buffer allocated for a level, or none to make that allocation fail;
copyTexelDataEx is an oracle telling which level conversions throw.
Conversion happens with isLittleEndian = true (line 1903). -/

/-- acquireFeedback_t as filled at lines 2269-2270. -/
structure acquireFeedback where
  hasDirectlyAcquired : Bool
  hasDirectlyAcquiredPalette : Bool
deriving DecidableEq, Repr

/-- Error data of a failed acquisition: the message, the ghost list of
conversion buffers allocated during the operation, the conversion
buffers freed during unwinding, and the source buffers freed during
the operation (loop frees plus the outer catch at lines 2243-2257). -/
structure pvrAcquireError where
  message : String
  allocated : List Nat
  freedConv : List Nat
  freedSrc : List Nat
deriving DecidableEq, Repr

/-- The per-level conversion loop (lines 2062-2139) together with the
unwinding behaviour of its catch blocks.  Arguments: remaining source
layers, level index, accumulated conversion layers (convLayers), ghost
list of allocated conversion buffers, source buffers freed so far.
On success it returns (convLayers, allocated, freedSrc). -/
def pvrConvertLayerLoop (pvrDepth : Nat) (srcNew : Bool)
    (alloc : Nat → Option Nat) (convThrows : Nat → Bool) :
    List mipmapLayer → Nat → List mipmapLayer → List Nat → List Nat →
    Except pvrAcquireError (List mipmapLayer × List Nat × List Nat)
  | [], _, acc, allocated, freedSrc => Except.ok (acc, allocated, freedSrc)
  | srcLayer :: rest, n, acc, allocated, freedSrc =>
    let dstRowSize := getPVRNativeImageRasterDataRowSize srcLayer.layerWidth pvrDepth
    let dstDataSize := getRasterDataSizeByRowSize dstRowSize srcLayer.layerHeight
    match alloc n with
    | none =>
      -- PixelAllocate returned null (line 2086): throw; the catch at
      -- line 2134 frees every layer held in convLayers, then the outer
      -- catch at line 2243 frees the source layers not yet released.
      Except.error
        { message := "failed to allocate destination conversion layer in PVR native image color data acquisition",
          allocated := allocated,
          freedConv := acc.map (fun c => c.texels),
          freedSrc := freedSrc ++
            (if srcNew then (srcLayer :: rest).map (fun c => c.texels) else []) }
    | some dstTexels =>
      if convThrows n then
        -- copyTexelDataEx threw (line 2096): the catch at line 2105
        -- frees dstTexels, the catch at line 2134 frees convLayers,
        -- the outer catch frees the remaining source layers.
        Except.error
          { message := "conversion exception in PVR native image color data acquisition",
            allocated := allocated ++ [dstTexels],
            freedConv := dstTexels :: acc.map (fun c => c.texels),
            freedSrc := freedSrc ++
              (if srcNew then (srcLayer :: rest).map (fun c => c.texels) else []) }
      else
        -- Successful conversion: free the old source buffer when it
        -- was newly allocated (lines 2113-2118), append the new layer.
        pvrConvertLayerLoop pvrDepth srcNew alloc convThrows rest (n + 1)
          (acc ++ [{ width := srcLayer.layerWidth, height := srcLayer.layerHeight,
                     layerWidth := srcLayer.layerWidth,
                     layerHeight := srcLayer.layerHeight,
                     texels := dstTexels, dataSize := dstDataSize }])
          (allocated ++ [dstTexels])
          (if srcNew then freedSrc ++ [srcLayer.texels] else freedSrc)

/-- ReadFromNativeTexture for an uncompressed framework source
(RWCOMPRESS_NONE branch, lines 2012-2271): decide direct acquisition,
possibly run the conversion loop, then commit the destination image
fields (lines 2224-2239) and report the feedback (lines 2269-2270).
The returned pair carries the result and the destination image after
the call: on an exception the destination is the untouched input
image.  Success carries the feedback and the ghost list of conversion
buffers allocated during the operation. -/
def pvrReadFromNativeTextureRawColor
    (natImg : pvrNativeImage)
    (srcLayers : List mipmapLayer) (srcLayersIsNewlyAllocated : Bool)
    (texCubeMap : Bool)
    (pvrPixelFormat : Nat) (canDirectlyAcquireColor : Bool)
    (paletteIsNone : Bool) (alignError : Bool)
    (alloc : Nat → Option Nat) (convThrows : Nat → Bool) :
    Except pvrAcquireError (acquireFeedback × List Nat) × pvrNativeImage :=
  let pvrDepth := getPVRLegacyFormatDepth pvrPixelFormat
  -- line 2027 and the alignment adjustment at lines 2029-2045
  let canDirectlyAcquire := paletteIsNone && canDirectlyAcquireColor && !alignError
  let loopOutcome :=
    if canDirectlyAcquire then
      Except.ok (srcLayers, srcLayersIsNewlyAllocated, ([] : List Nat))
    else
      match pvrConvertLayerLoop pvrDepth srcLayersIsNewlyAllocated alloc
          convThrows srcLayers 0 [] [] [] with
      | Except.error e => Except.error e
      | Except.ok (convLayers, allocated, _) =>
        -- lines 2142-2144: replace the layers, mark them newly allocated
        Except.ok (convLayers, true, allocated)
  match loopOutcome with
  | Except.error e => (Except.error e, natImg)
  | Except.ok (finalLayers, finalIsNewlyAllocated, allocated) =>
    (Except.ok
      ({ hasDirectlyAcquired := finalIsNewlyAllocated == false,
         hasDirectlyAcquiredPalette := false }, allocated),
     { pixelFormat := pvrPixelFormat,
       dataIsTwiddled := false,
       containsNormalData := false,
       hasBorder := false,
       isCubeMap := texCubeMap,
       mipmapsHaveDebugColoring := false,
       isVolumeTexture := false,
       hasAlphaChannel_pvrtc := false,
       isVerticallyFlipped := false,
       bitDepth := pvrDepth,
       mipmaps := finalLayers,
       isLittleEndian := true })

/-! ## Arithmetic helper lemmas -/

theorem toBytesLE_length (k n : Nat) : (toBytesLE k n).length = k := by
  induction k generalizing n with
  | zero => rfl
  | succ k ih => simp [toBytesLE, ih]

theorem toBytesLE_lt (k n : Nat) : ∀ b ∈ toBytesLE k n, b < 256 := by
  induction k generalizing n with
  | zero => intro b hb; simp [toBytesLE] at hb
  | succ k ih =>
    intro b hb
    simp only [toBytesLE, List.mem_cons] at hb
    rcases hb with hb | hb
    · exact hb ▸ Nat.mod_lt _ (by omega)
    · exact ih _ b hb

theorem fromBytesLE_toBytesLE (k n : Nat) (h : n < 256 ^ k) :
    fromBytesLE (toBytesLE k n) = n := by
  induction k generalizing n with
  | zero => simp [toBytesLE, fromBytesLE]; omega
  | succ k ih =>
    have hdiv : n / 256 < 256 ^ k := by
      rw [Nat.div_lt_iff_lt_mul (by omega)]
      calc n < 256 ^ (k + 1) := h
        _ = 256 ^ k * 256 := by rw [Nat.pow_succ]
    simp only [toBytesLE, fromBytesLE, ih (n / 256) hdiv]
    omega

theorem toBytesLE_fromBytesLE (bs : List Nat) (h : ∀ b ∈ bs, b < 256) :
    toBytesLE bs.length (fromBytesLE bs) = bs := by
  induction bs with
  | nil => rfl
  | cons b bs ih =>
    have hb : b < 256 := h b (List.mem_cons_self b bs)
    have hmod : (b + 256 * fromBytesLE bs) % 256 = b := by
      rw [Nat.add_mul_mod_self_left, Nat.mod_eq_of_lt hb]
    have hdiv : (b + 256 * fromBytesLE bs) / 256 = fromBytesLE bs := by
      rw [Nat.add_mul_div_left _ _ (by omega), Nat.div_eq_of_lt hb, Nat.zero_add]
    simp only [List.length_cons, toBytesLE, fromBytesLE, hmod, hdiv]
    exact congrArg (b :: ·) (ih fun x hx => h x (List.mem_cons_of_mem b hx))

theorem swapBytes_swapBytes (k n : Nat) (h : n < 256 ^ k) :
    swapBytes k (swapBytes k n) = n := by
  unfold swapBytes
  have hb : ∀ b ∈ (toBytesLE k n).reverse, b < 256 := by
    intro b hb; exact toBytesLE_lt k n b (List.mem_reverse.mp hb)
  have key : toBytesLE k (fromBytesLE (toBytesLE k n).reverse) =
      (toBytesLE k n).reverse := by
    have h2 := toBytesLE_fromBytesLE (toBytesLE k n).reverse hb
    rwa [List.length_reverse, toBytesLE_length] at h2
  rw [key, List.reverse_reverse, fromBytesLE_toBytesLE k n h]

theorem endianRepr_endianRepr (e : Bool) (k v : Nat) (h : v < 256 ^ k) :
    endianRepr e k (endianRepr e k v) = v := by
  cases e with
  | false => exact swapBytes_swapBytes k v h
  | true => rfl

theorem putscalecolor_le (c maxv : Nat) (hc : c ≤ 255) :
    putscalecolor c maxv ≤ maxv := by
  unfold putscalecolor
  have h1 : c * maxv * 2 + 255 ≤ 255 + 510 * maxv := by
    have : c * maxv ≤ 255 * maxv := Nat.mul_le_mul_right maxv hc
    omega
  calc (c * maxv * 2 + 255) / 510 ≤ (255 + 510 * maxv) / 510 :=
        Nat.div_le_div_right h1
    _ = maxv := by rw [Nat.add_mul_div_left _ _ (by omega)]; norm_num

theorem unpack2 (M0 M1 a b : Nat) (ha : a < M0) (hb : b < M1) :
    (a + M0 * b) % M0 = a ∧ (a + M0 * b) / M0 % M1 = b := by
  have h0 : 0 < M0 := by omega
  constructor
  · rw [Nat.add_mul_mod_self_left, Nat.mod_eq_of_lt ha]
  · rw [Nat.add_mul_div_left _ _ h0, Nat.div_eq_of_lt ha, Nat.zero_add,
        Nat.mod_eq_of_lt hb]

theorem unpack3 (M0 M1 M2 a b c : Nat) (ha : a < M0) (hb : b < M1)
    (hc : c < M2) :
    (a + M0 * (b + M1 * c)) % M0 = a ∧
    (a + M0 * (b + M1 * c)) / M0 % M1 = b ∧
    (a + M0 * (b + M1 * c)) / (M0 * M1) % M2 = c := by
  have h0 : 0 < M0 := by omega
  have hd : (a + M0 * (b + M1 * c)) / M0 = b + M1 * c := by
    rw [Nat.add_mul_div_left _ _ h0, Nat.div_eq_of_lt ha, Nat.zero_add]
  refine ⟨?_, ?_, ?_⟩
  · rw [Nat.add_mul_mod_self_left, Nat.mod_eq_of_lt ha]
  · rw [hd, Nat.add_mul_mod_self_left, Nat.mod_eq_of_lt hb]
  · rw [← Nat.div_div_eq_div_mul, hd, Nat.add_mul_div_left _ _ (by omega),
        Nat.div_eq_of_lt hb, Nat.zero_add, Nat.mod_eq_of_lt hc]

theorem unpack4 (M0 M1 M2 M3 a b c d : Nat) (ha : a < M0) (hb : b < M1)
    (hc : c < M2) (hd : d < M3) :
    (a + M0 * (b + M1 * (c + M2 * d))) % M0 = a ∧
    (a + M0 * (b + M1 * (c + M2 * d))) / M0 % M1 = b ∧
    (a + M0 * (b + M1 * (c + M2 * d))) / (M0 * M1) % M2 = c ∧
    (a + M0 * (b + M1 * (c + M2 * d))) / (M0 * M1 * M2) % M3 = d := by
  have h0 : 0 < M0 := by omega
  have hdiv : (a + M0 * (b + M1 * (c + M2 * d))) / M0 = b + M1 * (c + M2 * d) := by
    rw [Nat.add_mul_div_left _ _ h0, Nat.div_eq_of_lt ha, Nat.zero_add]
  obtain ⟨e1, e2, e3⟩ := unpack3 M1 M2 M3 b c d hb hc hd
  refine ⟨?_, ?_, ?_, ?_⟩
  · rw [Nat.add_mul_mod_self_left, Nat.mod_eq_of_lt ha]
  · rw [hdiv, e1]
  · rw [← Nat.div_div_eq_div_mul, hdiv, e2]
  · rw [show M0 * M1 * M2 = M0 * (M1 * M2) by ring, ← Nat.div_div_eq_div_mul,
        hdiv]
    exact e3

theorem ALIGN_SIZE_le (x n : Nat) (hn : 0 < n) : x ≤ ALIGN_SIZE x n := by
  unfold ALIGN_SIZE
  have h1 : x + n - 1 < (x + n - 1) / n * n + n := Nat.lt_div_mul_add hn
  omega

instance {e a : Type} [DecidableEq e] [DecidableEq a] : DecidableEq (Except e a) :=
  fun x y =>
  match x, y with
  | Except.error u, Except.error v => decidable_of_iff (u = v) (by simp)
  | Except.ok u, Except.ok v => decidable_of_iff (u = v) (by simp)
  | Except.error _, Except.ok _ => isFalse (by simp)
  | Except.ok _, Except.error _ => isFalse (by simp)

/-! ## Claim theorems -/

/-- C1: the spec claims the first four bytes are interpreted once as a
little-endian and once as a big-endian 32-bit size, and that a
well-formed big-endian file (size field 44 only under big-endian
interpretation) is accepted using big-endian decoding.  In the source
both members of header_data_union are declared
endian::little_endian, so the big-endian candidate equals the
little-endian one: the file [0,0,0,44] (the big-endian encoding of 44,
as the model's own big-endian field reader certifies) followed by a
complete 40-byte version-1 header is rejected. -/
theorem claim_C1 :
    takeU32 false [0, 0, 0, 44] = some (44, []) ∧
    readLegacyVersionHeader ([0, 0, 0, 44] ++ List.replicate 40 0) = none := by
  constructor
  · decide
  · decide

/-- C2: the spec claims the validity predicate accepts every one of the
55 enumerated pixel formats, including RGB_888 = 4.  The source chain
compares against only 54 enumerators and omits plain RGB_888, so
RGB_888 is rejected; every other enumerated id is accepted and every
8-bit id outside the enumeration is rejected. -/
theorem claim_C2 :
    isValidPVRLegacyPixelFormat RGB_888 = false ∧
    RGB_888 ∈ ePVRLegacyPixelFormatIds ∧
    (∀ f ∈ ePVRLegacyPixelFormatIds, f ≠ RGB_888 →
      isValidPVRLegacyPixelFormat f = true) ∧
    (∀ f < 256, f ∉ ePVRLegacyPixelFormatIds →
      isValidPVRLegacyPixelFormat f = false) := by
  refine ⟨by decide, by decide, by decide, by decide⟩

/-- C2 witness: the theorem applied at the concrete format RGB_565. -/
theorem claim_C2_witness : isValidPVRLegacyPixelFormat RGB_565 = true :=
  claim_C2.2.2.1 RGB_565 (by decide) (by decide)

/-- C3: the spec claims getRGBA on ABGR_16161616 returns red, green,
blue and alpha from the corresponding stored 16-bit channels.  The
source assigns blueOut twice and never assigns redOut, so for a texel
whose stored red channel is 65535 (all other channels 0) the fetched
color keeps the caller's red value 0 even though the scaled stored red
channel is 255. -/
theorem claim_C3 :
    getPVRLegacyPixelFormatType ABGR_16161616 = ePVRLegacyPixelFormatType.RGBA ∧
    browsetexelrgba true ABGR_16161616 (fun _ => 65535 * 65536 ^ 3) 0 0 0 0 0 =
      some (0, 0, 0, 0) ∧
    destscalecolor 65535 65535 = 255 := by
  refine ⟨by decide, by decide, by decide⟩

/-- C4: for every luminance-classified pixel format, setRGBA computes
the luminance, discards it, reports false and leaves the destination
texel buffer completely unchanged. -/
theorem claim_C4 :
    ∀ pixelFormat, getPVRLegacyPixelFormatType pixelFormat =
      ePVRLegacyPixelFormatType.LUMINANCE →
    ∀ (isLittleEndian : Bool) (buf : PVRBuffer) (i r g b a : Nat),
      pvrSetRGBA isLittleEndian pixelFormat buf i r g b a =
        Except.ok (false, buf) := by
  intro pixelFormat h isLittleEndian buf i r g b a
  simp only [pvrSetRGBA, h]

/-- C4 witness: setRGBA on the luminance format I8 leaves the all-zero
buffer unchanged and reports false. -/
theorem claim_C4_witness :
    pvrSetRGBA true I8 (fun _ => 0) 0 10 20 30 40 =
      Except.ok (false, (fun _ => 0 : PVRBuffer)) :=
  claim_C4 I8 (by decide) true (fun _ => 0) 0 10 20 30 40

/-- Rounding up to the nearest multiple, written as the claim describes
it: add the distance to the next multiple unless already aligned. -/
def roundUpToMultiple (x n : Nat) : Nat :=
  if x % n = 0 then x else x + (n - x % n)

theorem ALIGN_SIZE_eq_roundUpToMultiple (x n : Nat) (hn : 0 < n) :
    ALIGN_SIZE x n = roundUpToMultiple x n := by
  obtain ⟨q, r, rfl, hr⟩ : ∃ q r, x = n * q + r ∧ r < n :=
    ⟨x / n, x % n, (Nat.div_add_mod x n).symm, Nat.mod_lt _ hn⟩
  have hmod : (n * q + r) % n = r := by
    rw [Nat.mul_comm, Nat.add_comm, Nat.add_mul_mod_self_right, Nat.mod_eq_of_lt hr]
  unfold ALIGN_SIZE roundUpToMultiple
  rw [hmod]
  by_cases h0 : r = 0
  · subst h0
    rw [if_pos rfl, Nat.add_zero, Nat.add_sub_assoc hn, Nat.add_comm,
        Nat.add_mul_div_left _ _ hn, Nat.div_eq_of_lt (by omega), Nat.zero_add,
        Nat.mul_comm]
  · rw [if_neg h0]
    have h1 : n * q + r + n - 1 = (r - 1) + n * (q + 1) := by
      rw [Nat.mul_succ]; omega
    rw [h1, Nat.add_mul_div_left _ _ hn, Nat.div_eq_of_lt (by omega),
        Nat.zero_add, Nat.mul_comm, Nat.mul_succ]
    omega

theorem ALIGN_SIZE_two (x : Nat) : ALIGN_SIZE x 2 = roundUpToMultiple x 2 :=
  ALIGN_SIZE_eq_roundUpToMultiple x 2 (by omega)

theorem ALIGN_SIZE_four (x : Nat) : ALIGN_SIZE x 4 = roundUpToMultiple x 4 :=
  ALIGN_SIZE_eq_roundUpToMultiple x 4 (by omega)

theorem ALIGN_SIZE_eight (x : Nat) : ALIGN_SIZE x 8 = roundUpToMultiple x 8 :=
  ALIGN_SIZE_eq_roundUpToMultiple x 8 (by omega)

theorem ALIGN_SIZE_sixteen (x : Nat) : ALIGN_SIZE x 16 = roundUpToMultiple x 16 :=
  ALIGN_SIZE_eq_roundUpToMultiple x 16 (by omega)

theorem ALIGN_SIZE_one (x : Nat) : ALIGN_SIZE x 1 = x := by
  unfold ALIGN_SIZE
  omega

/-- The surface-dimension rule exactly as claim C5 states it: identity
for raw formats, round up to the nearest multiple of 2 for the 2x2
block formats, of 4 for DXT1-DXT5 and ETC, and to the PVRTC
compression block dimensions looked up by bit depth for the PVRTC
variants. -/
def surfaceDimensionsSpec (format layerWidth layerHeight : Nat) : Nat × Nat :=
  if format = V_Y1_U_Y0 ∨ format = Y1_V_Y0_U ∨ format = UYVY ∨
     format = YUY2 then
    (roundUpToMultiple layerWidth 2, roundUpToMultiple layerHeight 2)
  else if format = DXT1 ∨ format = DXT2 ∨ format = DXT3 ∨ format = DXT4 ∨
          format = DXT5 ∨ format = ETC then
    (roundUpToMultiple layerWidth 4, roundUpToMultiple layerHeight 4)
  else if format = PVRTC2 ∨ format = PVRTC4 ∨ format = PVRTC2_SEC ∨
          format = PVRTC4_SEC then
    let dims := getPVRCompressionBlockDimensions (getPVRLegacyFormatDepth format)
    (roundUpToMultiple layerWidth dims.1, roundUpToMultiple layerHeight dims.2)
  else
    (layerWidth, layerHeight)

/-- C5: for every legacy pixel format the computed surface dimensions
follow the claim's per-classification rounding rule, and a level's
byte size is rowSize(surfWidth, bitDepth) times surfHeight with
rowSize = ceil(surfWidth * bitDepth / 8) at the 1-byte row alignment. -/
theorem claim_C5 :
    ∀ format ∈ ePVRLegacyPixelFormatIds, ∀ layerWidth layerHeight : Nat,
      getPVRLegacyFormatSurfaceDimensions format layerWidth layerHeight =
        surfaceDimensionsSpec format layerWidth layerHeight ∧
      getRasterDataSizeByRowSize
        (getPVRNativeImageRasterDataRowSize
          (getPVRLegacyFormatSurfaceDimensions format layerWidth layerHeight).1
          (getPVRLegacyFormatDepth format))
        (getPVRLegacyFormatSurfaceDimensions format layerWidth layerHeight).2 =
      ((getPVRLegacyFormatSurfaceDimensions format layerWidth layerHeight).1 *
          getPVRLegacyFormatDepth format + 7) / 8 *
        (getPVRLegacyFormatSurfaceDimensions format layerWidth layerHeight).2 := by
  intro format hf layerWidth layerHeight
  refine ⟨?_, ?_⟩
  · fin_cases hf <;>
      simp [getPVRLegacyFormatSurfaceDimensions, surfaceDimensionsSpec,
        getPVRCompressionBlockDimensions, getPVRLegacyFormatDepth,
        ALIGN_SIZE_two, ALIGN_SIZE_four, ALIGN_SIZE_eight, ALIGN_SIZE_sixteen,
        ARGB_4444, ARGB_1555, RGB_565, RGB_555, RGB_888, ARGB_8888, ARGB_8332,
        I8, AI88, MONOCHROME, V_Y1_U_Y0, Y1_V_Y0_U, PVRTC2, PVRTC4,
        ARGB_4444_SEC, ARGB_1555_SEC, ARGB_8888_SEC, RGB_565_SEC, RGB_555_SEC,
        RGB_888_SEC, I8_SEC, AI88_SEC, PVRTC2_SEC, PVRTC4_SEC, BGRA_8888,
        DXT1, DXT2, DXT3, DXT4, DXT5, RGB332, AL_44, LVU_655, XLVU_8888,
        QWVU_8888, ABGR_2101010, ARGB_2101010, AWVU_2101010, GR_1616, VU_1616,
        ABGR_16161616, R_16F, GR_1616F, ABGR_16161616F, R_32F, GR_3232F,
        ABGR_32323232F, ETC, A8, VU_88, L16, L8, AL_88, UYVY, YUY2]
  · simp [getRasterDataSizeByRowSize, getPVRNativeImageRasterDataRowSize,
      getRasterDataRowSize, getPVRNativeImageRowAlignment, ALIGN_SIZE_one]

/-- C5 witness: the DXT1 example of the claim, logical size 10 x 10. -/
theorem claim_C5_witness :
    getPVRLegacyFormatSurfaceDimensions DXT1 10 10 =
      surfaceDimensionsSpec DXT1 10 10 ∧
    getRasterDataSizeByRowSize
      (getPVRNativeImageRasterDataRowSize
        (getPVRLegacyFormatSurfaceDimensions DXT1 10 10).1
        (getPVRLegacyFormatDepth DXT1))
      (getPVRLegacyFormatSurfaceDimensions DXT1 10 10).2 =
    ((getPVRLegacyFormatSurfaceDimensions DXT1 10 10).1 *
        getPVRLegacyFormatDepth DXT1 + 7) / 8 *
      (getPVRLegacyFormatSurfaceDimensions DXT1 10 10).2 :=
  claim_C5 DXT1 (by decide) 10 10

/-- C6: twiddled-flag validation in ReadNativeImage.  (1) A header with
the twiddled flag and non power-of-two-square dimensions is rejected;
(2) a twiddled header whose format is not compressed-classified is
rejected even with valid dimensions; (3) a twiddled header with
power-of-two square dimensions, a valid compressed-classified format
and none of the unsupported flags passes validation. -/
theorem claim_C6 :
    (∀ hdr : PVRLegacyHeader,
      formatField_dataIsTwiddled hdr.formatField = true →
      twiddleSizeRulesValid hdr.width hdr.height = false →
      ∃ msg, pvrReadHeaderValidate hdr = Except.error msg) ∧
    (∀ hdr : PVRLegacyHeader,
      formatField_dataIsTwiddled hdr.formatField = true →
      getPVRLegacyPixelFormatType (formatField_pixelFormat hdr.formatField) ≠
        ePVRLegacyPixelFormatType.COMPRESSED →
      ∃ msg, pvrReadHeaderValidate hdr = Except.error msg) ∧
    (∀ hdr : PVRLegacyHeader,
      formatField_dataIsTwiddled hdr.formatField = true →
      twiddleSizeRulesValid hdr.width hdr.height = true →
      getPVRLegacyPixelFormatType (formatField_pixelFormat hdr.formatField) =
        ePVRLegacyPixelFormatType.COMPRESSED →
      isValidPVRLegacyPixelFormat (formatField_pixelFormat hdr.formatField) = true →
      formatField_isCubeMap hdr.formatField = false →
      formatField_isVolumeTexture hdr.formatField = false →
      formatField_isVerticallyFlipped hdr.formatField = false →
      ∃ warnings, pvrReadHeaderValidate hdr = Except.ok warnings) := by
  refine ⟨?_, ?_, ?_⟩
  · intro hdr ht hs
    unfold pvrReadHeaderValidate
    dsimp only
    split_ifs
    all_goals (first | exact ⟨_, rfl⟩ | (split <;> exact ⟨_, rfl⟩) | simp_all)
  · intro hdr ht hc
    unfold pvrReadHeaderValidate
    dsimp only
    split_ifs
    all_goals (first | exact ⟨_, rfl⟩ | (split <;> exact ⟨_, rfl⟩) | simp_all [beq_iff_eq])
  · intro hdr ht hs hc hv hcube hvol hflip
    unfold pvrReadHeaderValidate
    dsimp only
    split_ifs
    all_goals (first | exact ⟨_, rfl⟩ | (split <;> exact ⟨_, rfl⟩) | simp_all [beq_iff_eq])

/-- C6 witness: the three concrete headers of the spec's test — a
twiddled 100 x 50 DXT1 header is rejected, a twiddled 64 x 64 RGB_565
header is rejected, a twiddled 64 x 64 DXT1 header passes. -/
theorem claim_C6_witness :
    (∃ msg, pvrReadHeaderValidate
      { width := 100, height := 50, mipmapCount := 0, formatField := 544,
        surfaceSize := 0, bitsPerPixel := 4, redMask := 0, greenMask := 0,
        blueMask := 0, alphaMask := 0, isLittleEndian := true } =
      Except.error msg) ∧
    (∃ msg, pvrReadHeaderValidate
      { width := 64, height := 64, mipmapCount := 0, formatField := 514,
        surfaceSize := 0, bitsPerPixel := 16, redMask := 0, greenMask := 0,
        blueMask := 0, alphaMask := 0, isLittleEndian := true } =
      Except.error msg) ∧
    (∃ warnings, pvrReadHeaderValidate
      { width := 64, height := 64, mipmapCount := 0, formatField := 544,
        surfaceSize := 0, bitsPerPixel := 4, redMask := 0, greenMask := 0,
        blueMask := 0, alphaMask := 0, isLittleEndian := true } =
      Except.ok warnings) :=
  ⟨claim_C6.1 _ (by decide) (by decide),
   claim_C6.2.1 _ (by decide) (by decide),
   claim_C6.2.2 _ (by decide) (by decide) (by decide) (by decide) (by decide)
     (by decide) (by decide)⟩

/-- C7: in the mipmap body loop, a level whose computed byte size
exceeds the remaining declared surfaceSize budget aborts the load with
the corruption error before that level's buffer is allocated — in
particular a surfaceSize smaller than the base-level byte size fails
with zero allocations — whereas finishing with fewer established
levels than declared, or with leftover unconsumed budget, only adds a
warning to a successful result. -/
theorem claim_C7 :
    (∀ (hdr : PVRLegacyHeader) (streamBytes : Nat) (warnings : List String),
      pvrReadHeaderValidate hdr = Except.ok warnings →
      mipGenIsValidLevel hdr.width hdr.height = true →
      hdr.surfaceSize <
        getRasterDataSizeByRowSize
          (getPVRNativeImageRasterDataRowSize
            (getPVRLegacyFormatSurfaceDimensions
              (formatField_pixelFormat hdr.formatField) hdr.width hdr.height).1
            (getPVRLegacyFormatDepth (formatField_pixelFormat hdr.formatField)))
          (getPVRLegacyFormatSurfaceDimensions
            (formatField_pixelFormat hdr.formatField) hdr.width hdr.height).2 →
      pvrReadNativeImage hdr streamBytes =
        Except.error ("too little surface data in PVR native image", 0)) ∧
    (∀ (hdr : PVRLegacyHeader) (streamBytes : Nat) (res : pvrReadResult),
      pvrReadNativeImage hdr streamBytes = Except.ok res →
      res.image.mipmaps.length ≠ hdr.mipmapCount + 1 →
      "PVR native image specified more mipmap layers than could be read" ∈
        res.warnings) ∧
    (∀ (hdr : PVRLegacyHeader) (streamBytes : Nat) (res : pvrReadResult),
      pvrReadNativeImage hdr streamBytes = Except.ok res →
      res.skippedBytes ≠ 0 →
      "PVR native image has surface meta-data" ∈ res.warnings) := by
  refine ⟨?_, ?_, ?_⟩
  · intro hdr streamBytes warnings hval hlvl hsize
    unfold pvrReadNativeImage
    rw [hval]
    dsimp only
    rw [hlvl]
    simp only [Bool.not_true, Bool.false_eq_true, if_false]
    unfold pvrReadMipLoop
    simp only [reduceIte]
    rw [if_pos hsize]
    rfl
  · intro hdr streamBytes res hok hneq
    unfold pvrReadNativeImage at hok
    cases hval : pvrReadHeaderValidate hdr with
    | error e => rw [hval] at hok; exact absurd hok (by simp)
    | ok ws =>
      rw [hval] at hok
      dsimp only at hok
      by_cases hlvl : mipGenIsValidLevel hdr.width hdr.height
      · rw [hlvl] at hok
        simp only [Bool.not_true, Bool.false_eq_true, if_false] at hok
        cases hloop : pvrReadMipLoop (formatField_pixelFormat hdr.formatField)
            (getPVRLegacyFormatDepth (formatField_pixelFormat hdr.formatField))
            (hdr.mipmapCount + 1) true hdr.width hdr.height hdr.surfaceSize
            streamBytes [] with
        | error e => rw [hloop] at hok; exact absurd hok (by simp)
        | ok triple =>
          obtain ⟨layers, leftover, streamLeft⟩ := triple
          rw [hloop] at hok
          dsimp only at hok
          rw [Except.ok.injEq] at hok
          subst hok
          dsimp only at hneq ⊢
          rw [if_pos hneq]
          simp [List.mem_append]
      · rw [Bool.not_eq_true] at hlvl
        rw [hlvl] at hok
        exact absurd hok (by simp)
  · intro hdr streamBytes res hok hskip
    unfold pvrReadNativeImage at hok
    cases hval : pvrReadHeaderValidate hdr with
    | error e => rw [hval] at hok; exact absurd hok (by simp)
    | ok ws =>
      rw [hval] at hok
      dsimp only at hok
      by_cases hlvl : mipGenIsValidLevel hdr.width hdr.height
      · rw [hlvl] at hok
        simp only [Bool.not_true, Bool.false_eq_true, if_false] at hok
        cases hloop : pvrReadMipLoop (formatField_pixelFormat hdr.formatField)
            (getPVRLegacyFormatDepth (formatField_pixelFormat hdr.formatField))
            (hdr.mipmapCount + 1) true hdr.width hdr.height hdr.surfaceSize
            streamBytes [] with
        | error e => rw [hloop] at hok; exact absurd hok (by simp)
        | ok triple =>
          obtain ⟨layers, leftover, streamLeft⟩ := triple
          rw [hloop] at hok
          dsimp only at hok
          rw [Except.ok.injEq] at hok
          subst hok
          dsimp only at hskip ⊢
          rw [if_pos hskip]
          simp [List.mem_append]
      · rw [Bool.not_eq_true] at hlvl
        rw [hlvl] at hok
        exact absurd hok (by simp)

/-- C7 witness: a 2 x 2 RGB_565 header declaring surfaceSize 7 (below
the base-level size 8) fails with zero allocations; a header declaring
six levels of a 1 x 1 image succeeds with the level-count warning; a
header with 3 leftover budget bytes succeeds with the surface
meta-data warning. -/
theorem claim_C7_witness :
    pvrReadNativeImage
      { width := 2, height := 2, mipmapCount := 0, formatField := 2,
        surfaceSize := 7, bitsPerPixel := 16, redMask := 0, greenMask := 0,
        blueMask := 0, alphaMask := 0, isLittleEndian := true } 100 =
      Except.error ("too little surface data in PVR native image", 0) ∧
    "PVR native image specified more mipmap layers than could be read" ∈
      (pvrReadResult.mk
        { pixelFormat := 2, dataIsTwiddled := false, containsNormalData := false,
          hasBorder := false, isCubeMap := false,
          mipmapsHaveDebugColoring := false, isVolumeTexture := false,
          hasAlphaChannel_pvrtc := false, isVerticallyFlipped := false,
          bitDepth := 16,
          mipmaps := [{ width := 1, height := 1, layerWidth := 1,
                        layerHeight := 1, texels := 0, dataSize := 2 }],
          isLittleEndian := true }
        ["PVR native image specified more mipmap layers than could be read"]
        0).warnings ∧
    "PVR native image has surface meta-data" ∈
      (pvrReadResult.mk
        { pixelFormat := 2, dataIsTwiddled := false, containsNormalData := false,
          hasBorder := false, isCubeMap := false,
          mipmapsHaveDebugColoring := false, isVolumeTexture := false,
          hasAlphaChannel_pvrtc := false, isVerticallyFlipped := false,
          bitDepth := 16,
          mipmaps := [{ width := 1, height := 1, layerWidth := 1,
                        layerHeight := 1, texels := 0, dataSize := 2 }],
          isLittleEndian := true }
        ["PVR native image has surface meta-data"]
        3).warnings :=
  ⟨claim_C7.1
      { width := 2, height := 2, mipmapCount := 0, formatField := 2,
        surfaceSize := 7, bitsPerPixel := 16, redMask := 0, greenMask := 0,
        blueMask := 0, alphaMask := 0, isLittleEndian := true } 100 []
      (by decide) (by decide) (by decide),
   claim_C7.2.1
      { width := 1, height := 1, mipmapCount := 5, formatField := 2,
        surfaceSize := 2, bitsPerPixel := 16, redMask := 0, greenMask := 0,
        blueMask := 0, alphaMask := 0, isLittleEndian := true } 2 _
      (by decide) (by decide),
   claim_C7.2.2
      { width := 1, height := 1, mipmapCount := 0, formatField := 2,
        surfaceSize := 5, bitsPerPixel := 16, redMask := 0, greenMask := 0,
        blueMask := 0, alphaMask := 0, isLittleEndian := true } 10 _
      (by decide) (by decide)⟩

theorem getPVRLegacyFormatSurfaceDimensions_le (format w h : Nat) :
    w ≤ (getPVRLegacyFormatSurfaceDimensions format w h).1 ∧
    h ≤ (getPVRLegacyFormatSurfaceDimensions format w h).2 := by
  unfold getPVRLegacyFormatSurfaceDimensions
  split_ifs with h1 h2 h3
  · exact ⟨ALIGN_SIZE_le w 2 (by omega), ALIGN_SIZE_le h 2 (by omega)⟩
  · exact ⟨ALIGN_SIZE_le w 4 (by omega), ALIGN_SIZE_le h 4 (by omega)⟩
  · dsimp only
    unfold getPVRCompressionBlockDimensions
    split_ifs
    · exact ⟨ALIGN_SIZE_le w 16 (by omega), ALIGN_SIZE_le h 8 (by omega)⟩
    · exact ⟨ALIGN_SIZE_le w 8 (by omega), ALIGN_SIZE_le h 8 (by omega)⟩
  · exact ⟨Nat.le_refl w, Nat.le_refl h⟩

theorem pvrReadMipLoop_layers_inv (pixelFormat format_bitDepth fuel : Nat) :
    ∀ (isFirstIter : Bool) (w h remaining streamBytes : Nat)
      (acc layers : List mipmapLayer) (leftover streamLeft : Nat),
      pvrReadMipLoop pixelFormat format_bitDepth fuel isFirstIter w h remaining
        streamBytes acc = Except.ok (layers, leftover, streamLeft) →
      (∀ L ∈ acc, L.layerWidth ≤ L.width ∧ L.layerHeight ≤ L.height ∧
        L.dataSize =
          getPVRNativeImageRasterDataRowSize L.width format_bitDepth * L.height) →
      ∀ L ∈ layers, L.layerWidth ≤ L.width ∧ L.layerHeight ≤ L.height ∧
        L.dataSize =
          getPVRNativeImageRasterDataRowSize L.width format_bitDepth * L.height := by
  induction fuel with
  | zero =>
    intro isFirstIter w h remaining streamBytes acc layers leftover streamLeft
      hok hacc
    unfold pvrReadMipLoop at hok
    simp only [Except.ok.injEq, Prod.mk.injEq] at hok
    obtain ⟨rfl, -, -⟩ := hok
    exact hacc
  | succ fuel ih =>
    intro isFirstIter w h remaining streamBytes acc layers leftover streamLeft
      hok hacc
    unfold pvrReadMipLoop at hok
    cases hstep : (if isFirstIter = true then some (w, h)
                   else mipGenIncrementLevel w h) with
    | none =>
      rw [hstep] at hok
      simp only [Except.ok.injEq, Prod.mk.injEq] at hok
      obtain ⟨rfl, -, -⟩ := hok
      exact hacc
    | some wh =>
      obtain ⟨mw, mh⟩ := wh
      rw [hstep] at hok
      dsimp only at hok
      split_ifs at hok with hrem hstream
      exact ih false mw mh _ _ _ layers leftover streamLeft hok (by
        intro L hL
        rcases List.mem_append.mp hL with hL | hL
        · exact hacc L hL
        · rw [List.mem_singleton] at hL
          subst hL
          exact ⟨(getPVRLegacyFormatSurfaceDimensions_le pixelFormat mw mh).1,
                 (getPVRLegacyFormatSurfaceDimensions_le pixelFormat mw mh).2,
                 rfl⟩)

/-- C9: after a successful ReadNativeImage, every stored mipmap layer
satisfies surfaceWidth at least layerWidth, surfaceHeight at least
layerHeight, and dataSize = rowSize(surfaceWidth, bitDepth) times
surfaceHeight at the fixed 1-byte row alignment. -/
theorem claim_C9 :
    ∀ (hdr : PVRLegacyHeader) (streamBytes : Nat) (res : pvrReadResult),
      pvrReadNativeImage hdr streamBytes = Except.ok res →
      ∀ L ∈ res.image.mipmaps,
        L.layerWidth ≤ L.width ∧ L.layerHeight ≤ L.height ∧
        L.dataSize =
          getPVRNativeImageRasterDataRowSize L.width res.image.bitDepth *
            L.height := by
  intro hdr streamBytes res hok
  unfold pvrReadNativeImage at hok
  cases hval : pvrReadHeaderValidate hdr with
  | error e => rw [hval] at hok; exact absurd hok (by simp)
  | ok ws =>
    rw [hval] at hok
    dsimp only at hok
    by_cases hlvl : mipGenIsValidLevel hdr.width hdr.height
    · rw [hlvl] at hok
      simp only [Bool.not_true, Bool.false_eq_true, if_false] at hok
      cases hloop : pvrReadMipLoop (formatField_pixelFormat hdr.formatField)
          (getPVRLegacyFormatDepth (formatField_pixelFormat hdr.formatField))
          (hdr.mipmapCount + 1) true hdr.width hdr.height hdr.surfaceSize
          streamBytes [] with
      | error e => rw [hloop] at hok; exact absurd hok (by simp)
      | ok triple =>
        obtain ⟨layers, leftover, streamLeft⟩ := triple
        rw [hloop] at hok
        dsimp only at hok
        rw [Except.ok.injEq] at hok
        subst hok
        dsimp only
        exact pvrReadMipLoop_layers_inv _ _ _ _ _ _ _ _ _ _ _ _ hloop
          (by intro L hL; exact absurd hL (List.not_mem_nil L))
    · rw [Bool.not_eq_true] at hlvl
      rw [hlvl] at hok
      exact absurd hok (by simp)

/-- C9 witness: the single DXT1 layer of a 4 x 4 single-level read. -/
theorem claim_C9_witness :
    (mipmapLayer.mk 4 4 4 4 0 8).layerWidth ≤ (mipmapLayer.mk 4 4 4 4 0 8).width ∧
    (mipmapLayer.mk 4 4 4 4 0 8).layerHeight ≤ (mipmapLayer.mk 4 4 4 4 0 8).height ∧
    (mipmapLayer.mk 4 4 4 4 0 8).dataSize =
      getPVRNativeImageRasterDataRowSize (mipmapLayer.mk 4 4 4 4 0 8).width
        (pvrReadResult.mk
          { pixelFormat := 32, dataIsTwiddled := false,
            containsNormalData := false, hasBorder := false, isCubeMap := false,
            mipmapsHaveDebugColoring := false, isVolumeTexture := false,
            hasAlphaChannel_pvrtc := false, isVerticallyFlipped := false,
            bitDepth := 4, mipmaps := [mipmapLayer.mk 4 4 4 4 0 8],
            isLittleEndian := true } [] 0).image.bitDepth *
        (mipmapLayer.mk 4 4 4 4 0 8).height :=
  claim_C9
    { width := 4, height := 4, mipmapCount := 0, formatField := 32,
      surfaceSize := 8, bitsPerPixel := 4, redMask := 0, greenMask := 0,
      blueMask := 0, alphaMask := 0, isLittleEndian := true } 8
    (pvrReadResult.mk
      { pixelFormat := 32, dataIsTwiddled := false, containsNormalData := false,
        hasBorder := false, isCubeMap := false,
        mipmapsHaveDebugColoring := false, isVolumeTexture := false,
        hasAlphaChannel_pvrtc := false, isVerticallyFlipped := false,
        bitDepth := 4, mipmaps := [mipmapLayer.mk 4 4 4 4 0 8],
        isLittleEndian := true } [] 0)
    (by decide) (mipmapLayer.mk 4 4 4 4 0 8) (by decide)

theorem pvrConvertLayerLoop_error (pvrDepth : Nat) (srcNew : Bool)
    (alloc : Nat → Option Nat) (convThrows : Nat → Bool) :
    ∀ (rest : List mipmapLayer) (n : Nat) (acc : List mipmapLayer)
      (freedSrc : List Nat) (e : pvrAcquireError),
      pvrConvertLayerLoop pvrDepth srcNew alloc convThrows rest n acc
        (acc.map (fun c => c.texels)) freedSrc = Except.error e →
      e.freedConv.Perm e.allocated ∧
      (srcNew = true →
        e.freedSrc = freedSrc ++ rest.map (fun c => c.texels)) := by
  intro rest
  induction rest with
  | nil =>
    intro n acc freedSrc e hrun
    exact absurd hrun (by simp [pvrConvertLayerLoop])
  | cons L rest ih =>
    intro n acc freedSrc e hrun
    unfold pvrConvertLayerLoop at hrun
    cases halloc : alloc n with
    | none =>
      rw [halloc] at hrun
      dsimp only at hrun
      rw [Except.error.injEq] at hrun
      subst hrun
      refine ⟨List.Perm.refl _, ?_⟩
      intro hsn
      subst hsn
      simp
    | some dst =>
      rw [halloc] at hrun
      dsimp only at hrun
      by_cases hconv : convThrows n
      · rw [hconv] at hrun
        simp only [if_true] at hrun
        rw [Except.error.injEq] at hrun
        subst hrun
        refine ⟨(List.perm_append_singleton dst _).symm, ?_⟩
        intro hsn
        subst hsn
        simp
      · rw [Bool.not_eq_true] at hconv
        rw [hconv] at hrun
        simp only [Bool.false_eq_true, if_false] at hrun
        have hmap : (acc.map (fun c => c.texels)) ++ [dst] =
            (acc ++ [{ width := L.layerWidth, height := L.layerHeight,
                       layerWidth := L.layerWidth, layerHeight := L.layerHeight,
                       texels := dst,
                       dataSize := getRasterDataSizeByRowSize
                         (getPVRNativeImageRasterDataRowSize L.layerWidth pvrDepth)
                         L.layerHeight : mipmapLayer }]).map
              (fun c => c.texels) := by
          simp
        rw [hmap] at hrun
        obtain ⟨hperm, hsrc⟩ := ih (n + 1) _ _ e hrun
        refine ⟨hperm, ?_⟩
        intro hsn
        have := hsrc hsn
        subst hsn
        simp only [if_true] at this
        rw [this]
        simp

theorem pvrConvertLayerLoop_ok_allocated (pvrDepth : Nat) (srcNew : Bool)
    (alloc : Nat → Option Nat) (convThrows : Nat → Bool) :
    ∀ (rest : List mipmapLayer) (n : Nat) (acc : List mipmapLayer)
      (freedSrc : List Nat) (conv : List mipmapLayer)
      (allocated freedSrcOut : List Nat),
      pvrConvertLayerLoop pvrDepth srcNew alloc convThrows rest n acc
        (acc.map (fun c => c.texels)) freedSrc =
        Except.ok (conv, allocated, freedSrcOut) →
      allocated.length = acc.length + rest.length := by
  intro rest
  induction rest with
  | nil =>
    intro n acc freedSrc conv allocated freedSrcOut hrun
    unfold pvrConvertLayerLoop at hrun
    simp only [Except.ok.injEq, Prod.mk.injEq] at hrun
    obtain ⟨-, rfl, -⟩ := hrun
    simp
  | cons L rest ih =>
    intro n acc freedSrc conv allocated freedSrcOut hrun
    unfold pvrConvertLayerLoop at hrun
    cases halloc : alloc n with
    | none =>
      rw [halloc] at hrun
      exact absurd hrun (by simp)
    | some dst =>
      rw [halloc] at hrun
      dsimp only at hrun
      by_cases hconv : convThrows n
      · rw [hconv] at hrun
        simp only [if_true] at hrun
        exact absurd hrun (by simp)
      · rw [Bool.not_eq_true] at hconv
        rw [hconv] at hrun
        simp only [Bool.false_eq_true, if_false] at hrun
        have hmap : (acc.map (fun c => c.texels)) ++ [dst] =
            (acc ++ [{ width := L.layerWidth, height := L.layerHeight,
                       layerWidth := L.layerWidth, layerHeight := L.layerHeight,
                       texels := dst,
                       dataSize := getRasterDataSizeByRowSize
                         (getPVRNativeImageRasterDataRowSize L.layerWidth pvrDepth)
                         L.layerHeight : mipmapLayer }]).map
              (fun c => c.texels) := by
          simp
        rw [hmap] at hrun
        have hlen := ih (n + 1) _ _ _ _ _ hrun
        simp at hlen ⊢
        omega

/-- C10: in the non-direct raw-color import path, a failure at any
level (allocation returning null or a conversion exception) frees a
permutation of exactly the conversion buffers allocated so far, frees
every source buffer exactly once when the source owned them,
propagates the error and leaves the destination image unmodified; on
success the feedback reports direct acquisition exactly when no new
buffers were allocated during the operation. -/
theorem claim_C10 :
    (∀ (natImg : pvrNativeImage) (srcLayers : List mipmapLayer)
       (srcNew texCubeMap : Bool) (pvrPixelFormat : Nat)
       (canDirectlyAcquireColor paletteIsNone alignError : Bool)
       (alloc : Nat → Option Nat) (convThrows : Nat → Bool)
       (e : pvrAcquireError) (imgAfter : pvrNativeImage),
      pvrReadFromNativeTextureRawColor natImg srcLayers srcNew texCubeMap
        pvrPixelFormat canDirectlyAcquireColor paletteIsNone alignError alloc
        convThrows = (Except.error e, imgAfter) →
      imgAfter = natImg ∧ e.freedConv.Perm e.allocated ∧
      (srcNew = true → e.freedSrc = srcLayers.map (fun c => c.texels))) ∧
    (∀ (natImg : pvrNativeImage) (srcLayers : List mipmapLayer)
       (srcNew texCubeMap : Bool) (pvrPixelFormat : Nat)
       (canDirectlyAcquireColor paletteIsNone alignError : Bool)
       (alloc : Nat → Option Nat) (convThrows : Nat → Bool)
       (fb : acquireFeedback) (allocated : List Nat)
       (imgAfter : pvrNativeImage),
      pvrReadFromNativeTextureRawColor natImg srcLayers srcNew texCubeMap
        pvrPixelFormat canDirectlyAcquireColor paletteIsNone alignError alloc
        convThrows = (Except.ok (fb, allocated), imgAfter) →
      srcLayers ≠ [] →
      (fb.hasDirectlyAcquired = true ↔ (srcNew = false ∧ allocated = []))) := by
  constructor
  · intro natImg srcLayers srcNew texCubeMap pvrPixelFormat
      canDirectlyAcquireColor paletteIsNone alignError alloc convThrows e
      imgAfter hrun
    unfold pvrReadFromNativeTextureRawColor at hrun
    dsimp only at hrun
    by_cases hca : (paletteIsNone && canDirectlyAcquireColor && !alignError) = true
    · rw [hca] at hrun
      simp only [if_true] at hrun
      exact absurd hrun (by simp)
    · rw [Bool.not_eq_true] at hca
      rw [hca] at hrun
      simp only [Bool.false_eq_true, if_false] at hrun
      cases hloop : pvrConvertLayerLoop (getPVRLegacyFormatDepth pvrPixelFormat)
          srcNew alloc convThrows srcLayers 0 [] [] [] with
      | error e2 =>
        rw [hloop] at hrun
        dsimp only at hrun
        rw [Prod.mk.injEq, Except.error.injEq] at hrun
        obtain ⟨rfl, rfl⟩ := hrun
        have hstart : ([] : List Nat) =
            ([] : List mipmapLayer).map (fun c => c.texels) := rfl
        rw [hstart] at hloop
        obtain ⟨hperm, hsrc⟩ :=
          pvrConvertLayerLoop_error _ _ _ _ srcLayers 0 [] [] _ hloop
        refine ⟨rfl, hperm, ?_⟩
        intro hsn
        rw [hsrc hsn]
        simp
      | ok triple =>
        obtain ⟨conv, allocated2, freedSrc2⟩ := triple
        rw [hloop] at hrun
        exact absurd hrun (by simp)
  · intro natImg srcLayers srcNew texCubeMap pvrPixelFormat
      canDirectlyAcquireColor paletteIsNone alignError alloc convThrows fb
      allocated imgAfter hrun hne
    unfold pvrReadFromNativeTextureRawColor at hrun
    dsimp only at hrun
    by_cases hca : (paletteIsNone && canDirectlyAcquireColor && !alignError) = true
    · rw [hca] at hrun
      simp only [if_true] at hrun
      rw [Prod.mk.injEq, Except.ok.injEq, Prod.mk.injEq] at hrun
      obtain ⟨⟨rfl, rfl⟩, -⟩ := hrun
      dsimp only
      cases srcNew <;> simp
    · rw [Bool.not_eq_true] at hca
      rw [hca] at hrun
      simp only [Bool.false_eq_true, if_false] at hrun
      cases hloop : pvrConvertLayerLoop (getPVRLegacyFormatDepth pvrPixelFormat)
          srcNew alloc convThrows srcLayers 0 [] [] [] with
      | error e2 =>
        rw [hloop] at hrun
        exact absurd hrun (by simp)
      | ok triple =>
        obtain ⟨conv, allocated2, freedSrc2⟩ := triple
        rw [hloop] at hrun
        dsimp only at hrun
        rw [Prod.mk.injEq, Except.ok.injEq, Prod.mk.injEq] at hrun
        obtain ⟨⟨rfl, rfl⟩, -⟩ := hrun
        have hstart : ([] : List Nat) =
            ([] : List mipmapLayer).map (fun c => c.texels) := rfl
        rw [hstart] at hloop
        have hlen := pvrConvertLayerLoop_ok_allocated _ _ _ _ srcLayers 0 [] []
          _ _ _ hloop
        have hpos : allocated2 ≠ [] := by
          intro h0
          rw [h0] at hlen
          simp at hlen
          exact hne (List.length_eq_zero.mp hlen.symm)
        dsimp only
        constructor
        · intro hcontr
          exact absurd hcontr (by simp)
        · rintro ⟨-, h0⟩
          exact absurd h0 hpos

/-- C10 witness: a single-layer source-owned import whose first
allocation fails leaves the destination untouched, frees no conversion
buffer (none was allocated) and frees the source buffer; a directly
acquirable import reports direct acquisition with no allocations. -/
theorem claim_C10_witness :
    ((pvrNativeImage.mk 0 false false false false false false false false 0 []
        true) =
      pvrNativeImage.mk 0 false false false false false false false false 0 []
        true ∧
     (pvrAcquireError.mk
        "failed to allocate destination conversion layer in PVR native image color data acquisition"
        [] [] [7]).freedConv.Perm
       (pvrAcquireError.mk
        "failed to allocate destination conversion layer in PVR native image color data acquisition"
        [] [] [7]).allocated ∧
     (true = true →
       (pvrAcquireError.mk
        "failed to allocate destination conversion layer in PVR native image color data acquisition"
        [] [] [7]).freedSrc =
       [mipmapLayer.mk 1 1 1 1 7 2].map (fun c => c.texels))) ∧
    ((acquireFeedback.mk true false).hasDirectlyAcquired = true ↔
      (false = false ∧ ([] : List Nat) = [])) :=
  ⟨claim_C10.1
    (pvrNativeImage.mk 0 false false false false false false false false 0 []
      true)
    [mipmapLayer.mk 1 1 1 1 7 2] true false 2 false true false
    (fun _ => none) (fun _ => false)
    (pvrAcquireError.mk
      "failed to allocate destination conversion layer in PVR native image color data acquisition"
      [] [] [7])
    (pvrNativeImage.mk 0 false false false false false false false false 0 []
      true)
    (by decide),
   claim_C10.2
    (pvrNativeImage.mk 0 false false false false false false false false 0 []
      true)
    [mipmapLayer.mk 1 1 1 1 7 2] false false 2 true true false
    (fun _ => some 9) (fun _ => false)
    (acquireFeedback.mk true false) []
    (pvrNativeImage.mk 2 false false false false false false false false 16
      [mipmapLayer.mk 1 1 1 1 7 2] true)
    (by decide) (by decide)⟩

/-! ## C8: sample-codec round trip -/

/-- The claim's composition: quantize an 8-bit channel to the stored
bit width (maximum maxv) and rescale to 8 bits, both round-to-nearest. -/
def quantizeChannel (c maxv : Nat) : Nat :=
  destscalecolor (putscalecolor c maxv) maxv

/-- The RGBA formats whose put and browse layouts agree, i.e. those on
which the set-then-get round trip is claimed after amendment. -/
def pvrRGBARoundTripFormats : List Nat :=
  [ ARGB_4444, ARGB_4444_SEC, ARGB_1555, ARGB_1555_SEC, RGB_565, RGB_565_SEC,
    RGB_555, RGB_555_SEC, ARGB_8888, ARGB_8888_SEC, ARGB_8332, BGRA_8888,
    RGB332, GR_1616 ]

/-- The luminance formats implemented by both puttexellum and
browsetexellum. -/
def pvrLumRoundTripFormats : List Nat :=
  [ I8, I8_SEC, L8, AI88, AI88_SEC, AL_88, AL_44, L16 ]

/-- What the round trip returns per format: each stored channel
quantized to its bit width, the ARGB_1555 alpha by presence of 255,
channels the format does not store as the constants 255 (alpha) and 0
(missing colors). -/
def rgbaRoundTripSpec (fmt r g b a : Nat) : Option (Nat × Nat × Nat × Nat) :=
  if fmt = ARGB_4444 ∨ fmt = ARGB_4444_SEC then
    some (quantizeChannel r 15, quantizeChannel g 15, quantizeChannel b 15,
          quantizeChannel a 15)
  else if fmt = ARGB_1555 ∨ fmt = ARGB_1555_SEC then
    some (quantizeChannel r 31, quantizeChannel g 31, quantizeChannel b 31,
          if a = 255 then 255 else 0)
  else if fmt = RGB_565 ∨ fmt = RGB_565_SEC then
    some (quantizeChannel r 31, quantizeChannel g 63, quantizeChannel b 31, 255)
  else if fmt = RGB_555 ∨ fmt = RGB_555_SEC then
    some (quantizeChannel r 31, quantizeChannel g 31, quantizeChannel b 31, 255)
  else if fmt = ARGB_8888 ∨ fmt = ARGB_8888_SEC then
    some (quantizeChannel r 255, quantizeChannel g 255, quantizeChannel b 255,
          quantizeChannel a 255)
  else if fmt = ARGB_8332 then
    some (quantizeChannel r 7, quantizeChannel g 7, quantizeChannel b 3,
          quantizeChannel a 255)
  else if fmt = BGRA_8888 then
    some (quantizeChannel r 255, quantizeChannel g 255, quantizeChannel b 255,
          quantizeChannel a 255)
  else if fmt = RGB332 then
    some (quantizeChannel r 7, quantizeChannel g 7, quantizeChannel b 3, 255)
  else if fmt = GR_1616 then
    some (quantizeChannel r 65535, quantizeChannel g 65535, 0, 255)
  else
    none

/-- What the luminance round trip returns per format. -/
def lumRoundTripSpec (fmt lum alpha : Nat) : Option (Nat × Nat) :=
  if fmt = I8 ∨ fmt = I8_SEC ∨ fmt = L8 then
    some (quantizeChannel lum 255, 255)
  else if fmt = AI88 ∨ fmt = AI88_SEC ∨ fmt = AL_88 then
    some (quantizeChannel lum 255, quantizeChannel alpha 255)
  else if fmt = AL_44 then
    some (quantizeChannel lum 15, quantizeChannel alpha 15)
  else if fmt = L16 then
    some (quantizeChannel lum 65535, 255)
  else
    none

theorem roundTrip_ARGB_4444 (e : Bool) (fmtEq : Nat)
    (hf : fmtEq = ARGB_4444 ∨ fmtEq = ARGB_4444_SEC)
    (buf : PVRBuffer) (i r g b a r0 g0 b0 a0 : Nat)
    (hr : r ≤ 255) (hg : g ≤ 255) (hb : b ≤ 255) (ha : a ≤ 255) :
    (puttexelrgba e fmtEq buf i r g b a).bind
      (fun nb => browsetexelrgba e fmtEq nb i r0 g0 b0 a0) =
    some (quantizeChannel r 15, quantizeChannel g 15, quantizeChannel b 15,
          quantizeChannel a 15) := by
  have hpr := putscalecolor_le r 15 hr
  have hpg := putscalecolor_le g 15 hg
  have hpb := putscalecolor_le b 15 hb
  have hpa := putscalecolor_le a 15 ha
  obtain ⟨e0, e1, e2, e3⟩ := unpack4 16 16 16 16 (putscalecolor a 15)
    (putscalecolor b 15) (putscalecolor g 15) (putscalecolor r 15)
    (by omega) (by omega) (by omega) (by omega)
  norm_num at e2 e3
  have hub : putscalecolor a 15 + 16 * (putscalecolor b 15 +
      16 * (putscalecolor g 15 + 16 * putscalecolor r 15)) < 256 ^ 2 := by
    simp only [show (256 : Nat) ^ 2 = 65536 from by norm_num]
    omega
  simp only [puttexelrgba, browsetexelrgba, if_pos hf, Option.some_bind,
    Function.update_same, endianRepr_endianRepr e 2 _ hub, e0, e1, e2, e3,
    quantizeChannel]

theorem roundTrip_ARGB_1555 (e : Bool) (fmtEq : Nat)
    (hf : fmtEq = ARGB_1555 ∨ fmtEq = ARGB_1555_SEC)
    (buf : PVRBuffer) (i r g b a r0 g0 b0 a0 : Nat)
    (hr : r ≤ 255) (hg : g ≤ 255) (hb : b ≤ 255) :
    (puttexelrgba e fmtEq buf i r g b a).bind
      (fun nb => browsetexelrgba e fmtEq nb i r0 g0 b0 a0) =
    some (quantizeChannel r 31, quantizeChannel g 31, quantizeChannel b 31,
          if a = 255 then 255 else 0) := by
  have hpr := putscalecolor_le r 31 hr
  have hpg := putscalecolor_le g 31 hg
  have hpb := putscalecolor_le b 31 hb
  have ha1 : (if a = 255 then 1 else 0) < 2 := by split <;> omega
  obtain ⟨e0, e1, e2, e3⟩ := unpack4 2 32 32 32 (if a = 255 then 1 else 0)
    (putscalecolor b 31) (putscalecolor g 31) (putscalecolor r 31)
    ha1 (by omega) (by omega) (by omega)
  norm_num at e2 e3
  have hub : (if a = 255 then 1 else 0) + 2 * (putscalecolor b 31 +
      32 * (putscalecolor g 31 + 32 * putscalecolor r 31)) < 256 ^ 2 := by
    simp only [show (256 : Nat) ^ 2 = 65536 from by norm_num]
    omega
  rcases hf with rfl | rfl <;>
    (simp [puttexelrgba, browsetexelrgba, Option.some_bind, Function.update_same,
       endianRepr_endianRepr e 2 _ hub, e0, e1, e2, e3, quantizeChannel,
       ARGB_4444, ARGB_4444_SEC, ARGB_1555, ARGB_1555_SEC] <;>
     by_cases h255 : a = 255 <;> simp [h255])

theorem roundTrip_RGB_565 (e : Bool) (fmtEq : Nat)
    (hf : fmtEq = RGB_565 ∨ fmtEq = RGB_565_SEC)
    (buf : PVRBuffer) (i r g b a r0 g0 b0 a0 : Nat)
    (hr : r ≤ 255) (hg : g ≤ 255) (hb : b ≤ 255) :
    (puttexelrgba e fmtEq buf i r g b a).bind
      (fun nb => browsetexelrgba e fmtEq nb i r0 g0 b0 a0) =
    some (quantizeChannel r 31, quantizeChannel g 63, quantizeChannel b 31,
          255) := by
  have hpr := putscalecolor_le r 31 hr
  have hpg := putscalecolor_le g 63 hg
  have hpb := putscalecolor_le b 31 hb
  obtain ⟨e0, e1, e2⟩ := unpack3 32 64 32 (putscalecolor b 31)
    (putscalecolor g 63) (putscalecolor r 31) (by omega) (by omega) (by omega)
  norm_num at e2
  have hub : putscalecolor b 31 + 32 * (putscalecolor g 63 +
      64 * putscalecolor r 31) < 256 ^ 2 := by
    simp only [show (256 : Nat) ^ 2 = 65536 from by norm_num]
    omega
  rcases hf with rfl | rfl <;>
    simp [puttexelrgba, browsetexelrgba, Option.some_bind, Function.update_same,
      endianRepr_endianRepr e 2 _ hub, e0, e1, e2, quantizeChannel,
      ARGB_4444, ARGB_4444_SEC, ARGB_1555, ARGB_1555_SEC, RGB_565, RGB_565_SEC]

theorem roundTrip_RGB_555 (e : Bool) (fmtEq : Nat)
    (hf : fmtEq = RGB_555 ∨ fmtEq = RGB_555_SEC)
    (buf : PVRBuffer) (i r g b a r0 g0 b0 a0 : Nat)
    (hr : r ≤ 255) (hg : g ≤ 255) (hb : b ≤ 255) :
    (puttexelrgba e fmtEq buf i r g b a).bind
      (fun nb => browsetexelrgba e fmtEq nb i r0 g0 b0 a0) =
    some (quantizeChannel r 31, quantizeChannel g 31, quantizeChannel b 31,
          255) := by
  have hpr := putscalecolor_le r 31 hr
  have hpg := putscalecolor_le g 31 hg
  have hpb := putscalecolor_le b 31 hb
  obtain ⟨e0, e1, e2, e3⟩ := unpack4 2 32 32 32 0
    (putscalecolor b 31) (putscalecolor g 31) (putscalecolor r 31)
    (by omega) (by omega) (by omega) (by omega)
  rw [Nat.zero_add] at e1 e2 e3
  norm_num at e2 e3
  have hub : 2 * (putscalecolor b 31 +
      32 * (putscalecolor g 31 + 32 * putscalecolor r 31)) < 256 ^ 2 := by
    simp only [show (256 : Nat) ^ 2 = 65536 from by norm_num]
    omega
  have hblt : putscalecolor b 31 < 32 := by omega
  rcases hf with rfl | rfl <;>
    simp [puttexelrgba, browsetexelrgba, Option.some_bind, Function.update_same,
      endianRepr_endianRepr e 2 _ hub, e1, e2, e3, quantizeChannel,
      Nat.mod_eq_of_lt hblt,
      ARGB_4444, ARGB_4444_SEC, ARGB_1555, ARGB_1555_SEC, RGB_565, RGB_565_SEC,
      RGB_555, RGB_555_SEC]

theorem roundTrip_ARGB_8888 (e : Bool) (fmtEq : Nat)
    (hf : fmtEq = ARGB_8888 ∨ fmtEq = ARGB_8888_SEC)
    (buf : PVRBuffer) (i r g b a r0 g0 b0 a0 : Nat)
    (hr : r ≤ 255) (hg : g ≤ 255) (hb : b ≤ 255) (ha : a ≤ 255) :
    (puttexelrgba e fmtEq buf i r g b a).bind
      (fun nb => browsetexelrgba e fmtEq nb i r0 g0 b0 a0) =
    some (quantizeChannel r 255, quantizeChannel g 255, quantizeChannel b 255,
          quantizeChannel a 255) := by
  have hpr := putscalecolor_le r 255 hr
  have hpg := putscalecolor_le g 255 hg
  have hpb := putscalecolor_le b 255 hb
  have hpa := putscalecolor_le a 255 ha
  obtain ⟨e0, e1, e2, e3⟩ := unpack4 256 256 256 256 (putscalecolor r 255)
    (putscalecolor g 255) (putscalecolor b 255) (putscalecolor a 255)
    (by omega) (by omega) (by omega) (by omega)
  norm_num at e2 e3
  have hub : putscalecolor r 255 + 256 * (putscalecolor g 255 +
      256 * (putscalecolor b 255 + 256 * putscalecolor a 255)) < 256 ^ 4 := by
    simp only [show (256 : Nat) ^ 4 = 4294967296 from by norm_num]
    omega
  rcases hf with rfl | rfl <;>
    simp [puttexelrgba, browsetexelrgba, Option.some_bind, Function.update_same,
      endianRepr_endianRepr e 4 _ hub, e0, e1, e2, e3, quantizeChannel,
      ARGB_4444, ARGB_4444_SEC, ARGB_1555, ARGB_1555_SEC, RGB_565, RGB_565_SEC,
      RGB_555, RGB_555_SEC, RGB_888, RGB_888_SEC, ARGB_8888, ARGB_8888_SEC]

theorem roundTrip_ARGB_8332 (e : Bool)
    (buf : PVRBuffer) (i r g b a r0 g0 b0 a0 : Nat)
    (hr : r ≤ 255) (hg : g ≤ 255) (hb : b ≤ 255) (ha : a ≤ 255) :
    (puttexelrgba e ARGB_8332 buf i r g b a).bind
      (fun nb => browsetexelrgba e ARGB_8332 nb i r0 g0 b0 a0) =
    some (quantizeChannel r 7, quantizeChannel g 7, quantizeChannel b 3,
          quantizeChannel a 255) := by
  have hpr := putscalecolor_le r 7 hr
  have hpg := putscalecolor_le g 7 hg
  have hpb := putscalecolor_le b 3 hb
  have hpa := putscalecolor_le a 255 ha
  obtain ⟨e0, e1, e2, e3⟩ := unpack4 256 8 8 4 (putscalecolor a 255)
    (putscalecolor r 7) (putscalecolor g 7) (putscalecolor b 3)
    (by omega) (by omega) (by omega) (by omega)
  norm_num at e2 e3
  have hub : putscalecolor a 255 + 256 * (putscalecolor r 7 +
      8 * (putscalecolor g 7 + 8 * putscalecolor b 3)) < 256 ^ 2 := by
    simp only [show (256 : Nat) ^ 2 = 65536 from by norm_num]
    omega
  simp [puttexelrgba, browsetexelrgba, Option.some_bind, Function.update_same,
    endianRepr_endianRepr e 2 _ hub, e0, e1, e2, e3, quantizeChannel,
    ARGB_4444, ARGB_4444_SEC, ARGB_1555, ARGB_1555_SEC, RGB_565, RGB_565_SEC,
    RGB_555, RGB_555_SEC, RGB_888, RGB_888_SEC, ARGB_8888, ARGB_8888_SEC,
    ARGB_8332]

theorem roundTrip_BGRA_8888 (e : Bool)
    (buf : PVRBuffer) (i r g b a r0 g0 b0 a0 : Nat)
    (hr : r ≤ 255) (hg : g ≤ 255) (hb : b ≤ 255) (ha : a ≤ 255) :
    (puttexelrgba e BGRA_8888 buf i r g b a).bind
      (fun nb => browsetexelrgba e BGRA_8888 nb i r0 g0 b0 a0) =
    some (quantizeChannel r 255, quantizeChannel g 255, quantizeChannel b 255,
          quantizeChannel a 255) := by
  have hpr := putscalecolor_le r 255 hr
  have hpg := putscalecolor_le g 255 hg
  have hpb := putscalecolor_le b 255 hb
  have hpa := putscalecolor_le a 255 ha
  obtain ⟨e0, e1, e2, e3⟩ := unpack4 256 256 256 256 (putscalecolor b 255)
    (putscalecolor g 255) (putscalecolor r 255) (putscalecolor a 255)
    (by omega) (by omega) (by omega) (by omega)
  norm_num at e2 e3
  have hub : putscalecolor b 255 + 256 * (putscalecolor g 255 +
      256 * (putscalecolor r 255 + 256 * putscalecolor a 255)) < 256 ^ 4 := by
    simp only [show (256 : Nat) ^ 4 = 4294967296 from by norm_num]
    omega
  simp [puttexelrgba, browsetexelrgba, Option.some_bind, Function.update_same,
    endianRepr_endianRepr e 4 _ hub, e0, e1, e2, e3, quantizeChannel,
    ARGB_4444, ARGB_4444_SEC, ARGB_1555, ARGB_1555_SEC, RGB_565, RGB_565_SEC,
    RGB_555, RGB_555_SEC, RGB_888, RGB_888_SEC, ARGB_8888, ARGB_8888_SEC,
    ARGB_8332, BGRA_8888]

theorem roundTrip_RGB332 (e : Bool)
    (buf : PVRBuffer) (i r g b a r0 g0 b0 a0 : Nat)
    (hr : r ≤ 255) (hg : g ≤ 255) (hb : b ≤ 255) :
    (puttexelrgba e RGB332 buf i r g b a).bind
      (fun nb => browsetexelrgba e RGB332 nb i r0 g0 b0 a0) =
    some (quantizeChannel r 7, quantizeChannel g 7, quantizeChannel b 3,
          255) := by
  have hpr := putscalecolor_le r 7 hr
  have hpg := putscalecolor_le g 7 hg
  have hpb := putscalecolor_le b 3 hb
  obtain ⟨e0, e1, e2⟩ := unpack3 8 8 4 (putscalecolor r 7)
    (putscalecolor g 7) (putscalecolor b 3) (by omega) (by omega) (by omega)
  norm_num at e2
  have hub : putscalecolor r 7 + 8 * (putscalecolor g 7 +
      8 * putscalecolor b 3) < 256 ^ 1 := by
    simp only [show (256 : Nat) ^ 1 = 256 from by norm_num]
    omega
  simp [puttexelrgba, browsetexelrgba, Option.some_bind, Function.update_same,
    endianRepr_endianRepr e 1 _ hub, e0, e1, e2, quantizeChannel,
    ARGB_4444, ARGB_4444_SEC, ARGB_1555, ARGB_1555_SEC, RGB_565, RGB_565_SEC,
    RGB_555, RGB_555_SEC, RGB_888, RGB_888_SEC, ARGB_8888, ARGB_8888_SEC,
    ARGB_8332, BGRA_8888, RGB332]

theorem roundTrip_GR_1616 (e : Bool)
    (buf : PVRBuffer) (i r g b a r0 g0 b0 a0 : Nat)
    (hr : r ≤ 255) (hg : g ≤ 255) :
    (puttexelrgba e GR_1616 buf i r g b a).bind
      (fun nb => browsetexelrgba e GR_1616 nb i r0 g0 b0 a0) =
    some (quantizeChannel r 65535, quantizeChannel g 65535, 0, 255) := by
  have hpr := putscalecolor_le r 65535 hr
  have hpg := putscalecolor_le g 65535 hg
  obtain ⟨e0, e1⟩ := unpack2 65536 65536 (putscalecolor g 65535)
    (putscalecolor r 65535) (by omega) (by omega)
  have hub : putscalecolor g 65535 + 65536 * putscalecolor r 65535 <
      256 ^ 4 := by
    simp only [show (256 : Nat) ^ 4 = 4294967296 from by norm_num]
    omega
  simp [puttexelrgba, browsetexelrgba, Option.some_bind, Function.update_same,
    endianRepr_endianRepr e 4 _ hub, e0, e1, quantizeChannel,
    ARGB_4444, ARGB_4444_SEC, ARGB_1555, ARGB_1555_SEC, RGB_565, RGB_565_SEC,
    RGB_555, RGB_555_SEC, RGB_888, RGB_888_SEC, ARGB_8888, ARGB_8888_SEC,
    ARGB_8332, BGRA_8888, RGB332, ABGR_2101010, ARGB_2101010, GR_1616]

theorem roundTrip_I8 (e : Bool) (fmtEq : Nat)
    (hf : fmtEq = I8 ∨ fmtEq = I8_SEC ∨ fmtEq = L8)
    (buf : PVRBuffer) (i lum alpha : Nat) (hl : lum ≤ 255) :
    (puttexellum e fmtEq buf i lum alpha).bind
      (fun nb => browsetexellum e fmtEq nb i) =
    some (quantizeChannel lum 255, 255) := by
  have hpl := putscalecolor_le lum 255 hl
  have hub : putscalecolor lum 255 < 256 ^ 1 := by
    simp only [show (256 : Nat) ^ 1 = 256 from by norm_num]
    omega
  have hm : putscalecolor lum 255 % 256 = putscalecolor lum 255 :=
    Nat.mod_eq_of_lt (by omega)
  rcases hf with rfl | rfl | rfl <;>
    simp [puttexellum, browsetexellum, Option.some_bind, Function.update_same,
      endianRepr_endianRepr e 1 _ hub, hm, quantizeChannel,
      I8, I8_SEC, L8, AI88, AI88_SEC, AL_88, AL_44, L16]

theorem roundTrip_AI88 (e : Bool) (fmtEq : Nat)
    (hf : fmtEq = AI88 ∨ fmtEq = AI88_SEC ∨ fmtEq = AL_88)
    (buf : PVRBuffer) (i lum alpha : Nat) (hl : lum ≤ 255) (ha : alpha ≤ 255) :
    (puttexellum e fmtEq buf i lum alpha).bind
      (fun nb => browsetexellum e fmtEq nb i) =
    some (quantizeChannel lum 255, quantizeChannel alpha 255) := by
  have hpl := putscalecolor_le lum 255 hl
  have hpa := putscalecolor_le alpha 255 ha
  obtain ⟨e0, e1⟩ := unpack2 256 256 (putscalecolor lum 255)
    (putscalecolor alpha 255) (by omega) (by omega)
  have hub : putscalecolor lum 255 + 256 * putscalecolor alpha 255 <
      256 ^ 2 := by
    simp only [show (256 : Nat) ^ 2 = 65536 from by norm_num]
    omega
  rcases hf with rfl | rfl | rfl <;>
    simp [puttexellum, browsetexellum, Option.some_bind, Function.update_same,
      endianRepr_endianRepr e 2 _ hub, e0, e1, quantizeChannel,
      I8, I8_SEC, L8, AI88, AI88_SEC, AL_88, AL_44, L16]

theorem roundTrip_AL_44 (e : Bool)
    (buf : PVRBuffer) (i lum alpha : Nat) (hl : lum ≤ 255) (ha : alpha ≤ 255) :
    (puttexellum e AL_44 buf i lum alpha).bind
      (fun nb => browsetexellum e AL_44 nb i) =
    some (quantizeChannel lum 15, quantizeChannel alpha 15) := by
  have hpl := putscalecolor_le lum 15 hl
  have hpa := putscalecolor_le alpha 15 ha
  obtain ⟨e0, e1⟩ := unpack2 16 16 (putscalecolor lum 15)
    (putscalecolor alpha 15) (by omega) (by omega)
  have hub : putscalecolor lum 15 + 16 * putscalecolor alpha 15 <
      256 ^ 1 := by
    simp only [show (256 : Nat) ^ 1 = 256 from by norm_num]
    omega
  simp [puttexellum, browsetexellum, Option.some_bind, Function.update_same,
    endianRepr_endianRepr e 1 _ hub, e0, e1, quantizeChannel,
    I8, I8_SEC, L8, AI88, AI88_SEC, AL_88, AL_44, L16]

theorem roundTrip_L16 (e : Bool)
    (buf : PVRBuffer) (i lum alpha : Nat) (hl : lum ≤ 255) :
    (puttexellum e L16 buf i lum alpha).bind
      (fun nb => browsetexellum e L16 nb i) =
    some (quantizeChannel lum 65535, 255) := by
  have hpl := putscalecolor_le lum 65535 hl
  have hub : putscalecolor lum 65535 < 256 ^ 2 := by
    simp only [show (256 : Nat) ^ 2 = 65536 from by norm_num]
    omega
  have hm : putscalecolor lum 65535 % 65536 = putscalecolor lum 65535 :=
    Nat.mod_eq_of_lt (by omega)
  simp [puttexellum, browsetexellum, Option.some_bind, Function.update_same,
    endianRepr_endianRepr e 2 _ hub, hm, quantizeChannel,
    I8, I8_SEC, L8, AI88, AI88_SEC, AL_88, AL_44, L16]

/-- C8 (amended): for every RGBA-classified integer format whose put
and browse texel layouts agree, setRGBA followed by getRGBA at the
same index returns each stored channel quantized to its bit width by
linear round-to-nearest scaling (the ARGB_1555 1-bit alpha maps to 255
exactly for input 255; channels the format does not store read back as
the constants 255 / 0); analogously setLuminance followed by
getLuminance on the implemented luminance formats. -/
theorem claim_C8 :
    (∀ (isLittleEndian : Bool) (fmt : Nat), fmt ∈ pvrRGBARoundTripFormats →
      ∀ (buf : PVRBuffer) (i r g b a r0 g0 b0 a0 : Nat),
        r ≤ 255 → g ≤ 255 → b ≤ 255 → a ≤ 255 →
        (puttexelrgba isLittleEndian fmt buf i r g b a).bind
          (fun nb => browsetexelrgba isLittleEndian fmt nb i r0 g0 b0 a0) =
        rgbaRoundTripSpec fmt r g b a) ∧
    (∀ (isLittleEndian : Bool) (fmt : Nat), fmt ∈ pvrLumRoundTripFormats →
      ∀ (buf : PVRBuffer) (i lum alpha : Nat),
        lum ≤ 255 → alpha ≤ 255 →
        (puttexellum isLittleEndian fmt buf i lum alpha).bind
          (fun nb => browsetexellum isLittleEndian fmt nb i) =
        lumRoundTripSpec fmt lum alpha) := by
  constructor
  · intro e fmt hmem buf i r g b a r0 g0 b0 a0 hr hg hb ha
    fin_cases hmem
    · exact (roundTrip_ARGB_4444 e _ (Or.inl rfl) buf i r g b a r0 g0 b0 a0
        hr hg hb ha).trans (by simp [rgbaRoundTripSpec])
    · exact (roundTrip_ARGB_4444 e _ (Or.inr rfl) buf i r g b a r0 g0 b0 a0
        hr hg hb ha).trans (by simp [rgbaRoundTripSpec])
    · exact (roundTrip_ARGB_1555 e _ (Or.inl rfl) buf i r g b a r0 g0 b0 a0
        hr hg hb).trans (by simp [rgbaRoundTripSpec, ARGB_4444, ARGB_4444_SEC,
          ARGB_1555, ARGB_1555_SEC])
    · exact (roundTrip_ARGB_1555 e _ (Or.inr rfl) buf i r g b a r0 g0 b0 a0
        hr hg hb).trans (by simp [rgbaRoundTripSpec, ARGB_4444, ARGB_4444_SEC,
          ARGB_1555, ARGB_1555_SEC])
    · exact (roundTrip_RGB_565 e _ (Or.inl rfl) buf i r g b a r0 g0 b0 a0
        hr hg hb).trans (by simp [rgbaRoundTripSpec, ARGB_4444, ARGB_4444_SEC,
          ARGB_1555, ARGB_1555_SEC, RGB_565, RGB_565_SEC])
    · exact (roundTrip_RGB_565 e _ (Or.inr rfl) buf i r g b a r0 g0 b0 a0
        hr hg hb).trans (by simp [rgbaRoundTripSpec, ARGB_4444, ARGB_4444_SEC,
          ARGB_1555, ARGB_1555_SEC, RGB_565, RGB_565_SEC])
    · exact (roundTrip_RGB_555 e _ (Or.inl rfl) buf i r g b a r0 g0 b0 a0
        hr hg hb).trans (by simp [rgbaRoundTripSpec, ARGB_4444, ARGB_4444_SEC,
          ARGB_1555, ARGB_1555_SEC, RGB_565, RGB_565_SEC, RGB_555, RGB_555_SEC])
    · exact (roundTrip_RGB_555 e _ (Or.inr rfl) buf i r g b a r0 g0 b0 a0
        hr hg hb).trans (by simp [rgbaRoundTripSpec, ARGB_4444, ARGB_4444_SEC,
          ARGB_1555, ARGB_1555_SEC, RGB_565, RGB_565_SEC, RGB_555, RGB_555_SEC])
    · exact (roundTrip_ARGB_8888 e _ (Or.inl rfl) buf i r g b a r0 g0 b0 a0
        hr hg hb ha).trans (by simp [rgbaRoundTripSpec, ARGB_4444,
          ARGB_4444_SEC, ARGB_1555, ARGB_1555_SEC, RGB_565, RGB_565_SEC,
          RGB_555, RGB_555_SEC, ARGB_8888, ARGB_8888_SEC])
    · exact (roundTrip_ARGB_8888 e _ (Or.inr rfl) buf i r g b a r0 g0 b0 a0
        hr hg hb ha).trans (by simp [rgbaRoundTripSpec, ARGB_4444,
          ARGB_4444_SEC, ARGB_1555, ARGB_1555_SEC, RGB_565, RGB_565_SEC,
          RGB_555, RGB_555_SEC, ARGB_8888, ARGB_8888_SEC])
    · exact (roundTrip_ARGB_8332 e buf i r g b a r0 g0 b0 a0
        hr hg hb ha).trans (by simp [rgbaRoundTripSpec, ARGB_4444,
          ARGB_4444_SEC, ARGB_1555, ARGB_1555_SEC, RGB_565, RGB_565_SEC,
          RGB_555, RGB_555_SEC, ARGB_8888, ARGB_8888_SEC, ARGB_8332])
    · exact (roundTrip_BGRA_8888 e buf i r g b a r0 g0 b0 a0
        hr hg hb ha).trans (by simp [rgbaRoundTripSpec, ARGB_4444,
          ARGB_4444_SEC, ARGB_1555, ARGB_1555_SEC, RGB_565, RGB_565_SEC,
          RGB_555, RGB_555_SEC, ARGB_8888, ARGB_8888_SEC, ARGB_8332,
          BGRA_8888])
    · exact (roundTrip_RGB332 e buf i r g b a r0 g0 b0 a0
        hr hg hb).trans (by simp [rgbaRoundTripSpec, ARGB_4444,
          ARGB_4444_SEC, ARGB_1555, ARGB_1555_SEC, RGB_565, RGB_565_SEC,
          RGB_555, RGB_555_SEC, ARGB_8888, ARGB_8888_SEC, ARGB_8332,
          BGRA_8888, RGB332])
    · exact (roundTrip_GR_1616 e buf i r g b a r0 g0 b0 a0
        hr hg).trans (by simp [rgbaRoundTripSpec, ARGB_4444,
          ARGB_4444_SEC, ARGB_1555, ARGB_1555_SEC, RGB_565, RGB_565_SEC,
          RGB_555, RGB_555_SEC, ARGB_8888, ARGB_8888_SEC, ARGB_8332,
          BGRA_8888, RGB332, GR_1616])
  · intro e fmt hmem buf i lum alpha hl ha
    fin_cases hmem
    · exact (roundTrip_I8 e _ (Or.inl rfl) buf i lum alpha hl).trans
        (by simp [lumRoundTripSpec])
    · exact (roundTrip_I8 e _ (Or.inr (Or.inl rfl)) buf i lum alpha hl).trans
        (by simp [lumRoundTripSpec])
    · exact (roundTrip_I8 e _ (Or.inr (Or.inr rfl)) buf i lum alpha hl).trans
        (by simp [lumRoundTripSpec])
    · exact (roundTrip_AI88 e _ (Or.inl rfl) buf i lum alpha hl ha).trans
        (by simp [lumRoundTripSpec, I8, I8_SEC, L8, AI88, AI88_SEC, AL_88])
    · exact (roundTrip_AI88 e _ (Or.inr (Or.inl rfl)) buf i lum alpha hl
        ha).trans
        (by simp [lumRoundTripSpec, I8, I8_SEC, L8, AI88, AI88_SEC, AL_88])
    · exact (roundTrip_AI88 e _ (Or.inr (Or.inr rfl)) buf i lum alpha hl
        ha).trans
        (by simp [lumRoundTripSpec, I8, I8_SEC, L8, AI88, AI88_SEC, AL_88])
    · exact (roundTrip_AL_44 e buf i lum alpha hl ha).trans
        (by simp [lumRoundTripSpec, I8, I8_SEC, L8, AI88, AI88_SEC, AL_88,
          AL_44])
    · exact (roundTrip_L16 e buf i lum alpha hl).trans
        (by simp [lumRoundTripSpec, I8, I8_SEC, L8, AI88, AI88_SEC, AL_88,
          AL_44, L16])

/-- C8 counterexample: the claim as stated fails on RGB_888, an
RGBA-classified format: writing (10, 20, 30, 255) and reading it back
returns (30, 20, 10, 255) — the put layout stores red first while the
browse layout reads blue first — instead of the quantized original
(quantization at 8 bits is the identity). -/
theorem claim_C8_counterexample :
    getPVRLegacyPixelFormatType RGB_888 = ePVRLegacyPixelFormatType.RGBA ∧
    (puttexelrgba true RGB_888 (fun _ => 0) 0 10 20 30 255).bind
      (fun nb => browsetexelrgba true RGB_888 nb 0 0 0 0 0) =
      some (30, 20, 10, 255) ∧
    quantizeChannel 10 255 = 10 ∧ quantizeChannel 30 255 = 30 ∧
    (30 : Nat) ≠ 10 := by
  refine ⟨by decide, by decide, by decide, by decide, by decide⟩

/-- C8 witness: the round trip applied at ARGB_4444 with color
(130, 7, 9, 255) and at I8 with luminance 77. -/
theorem claim_C8_witness :
    (puttexelrgba true ARGB_4444 (fun _ => 0) 0 130 7 9 255).bind
      (fun nb => browsetexelrgba true ARGB_4444 nb 0 0 0 0 0) =
      rgbaRoundTripSpec ARGB_4444 130 7 9 255 ∧
    (puttexellum true I8 (fun _ => 0) 0 77 3).bind
      (fun nb => browsetexellum true I8 nb 0) =
      lumRoundTripSpec I8 77 3 :=
  ⟨claim_C8.1 true ARGB_4444 (by decide) (fun _ => 0) 0 130 7 9 255 0 0 0 0
     (by decide) (by decide) (by decide) (by decide),
   claim_C8.2 true I8 (by decide) (fun _ => 0) 0 77 3 (by decide) (by decide)⟩
